import Mathlib

/-!
# Edge AI motor anomaly detection: control loop and MQTT connection state

Shallow embedding of `src/main.cpp` (the acquisition / decision / publish
loop) and `src/mqtt/mqtt.c` (the connection state machine).

Modelling conventions
* `float` values are the rationals they denote (scores and samples are finite
  numbers; comparison and division by the power of two 16384 are exact).
* `uint8_t fault_counter` is a `Nat` reduced `% 256` at the increment.
* `int64_t` uptime values are `Int` (milliseconds; no overflow is reachable).
* `atomic_t` flags are `Nat`, tested against zero as the C code does.
* Calls into collaborators (classifier, MQTT helper, work queue, watchdog) are
  recorded, in program order, in a list of `Call`s returned next to the state.
* What the environment supplies to one loop iteration (sensor reading,
  classifier verdict, uptime, connection flags) is a `Tick`.
-/

namespace EdgeAI

/-! ## Constants of `main.cpp` -/

/-- Distance threshold, `#define FIXED_THRESHOLD 300.0f`. -/
def FIXED_THRESHOLD : Rat := 300

/-- Number of consecutive detections, `#define CONSECUTIVE_FAULTS 3`. -/
def CONSECUTIVE_FAULTS : Nat := 3

/-- Heartbeat period in seconds, `#define HEARTBEAT_SECONDS 10`. -/
def HEARTBEAT_SECONDS : Int := 10

/-- Watchdog window in milliseconds, `#define WDT_FEED_INTERVAL_MS 1000`. -/
def WDT_FEED_INTERVAL_MS : Nat := 1000

/-- Buffer length, `#define RAW_SIZE (RAW_COUNT * 3)`; `RAW_COUNT` is the
model-defined `EI_CLASSIFIER_RAW_SAMPLE_COUNT`, a parameter here. -/
def RAW_SIZE (RAW_COUNT : Nat) : Nat := RAW_COUNT * 3

/-! ## `mqtt.h` / `mqtt.c` -/

/-- Message handed to `mqtt_publish_anomaly` (`ei_anomaly_msg` of `mqtt.h`). -/
structure ei_anomaly_msg where
  score : Rat
  threshold : Rat
  status : String
  deriving DecidableEq, Repr

/-- Return code of an accepted connection (`MQTT_CONNECTION_ACCEPTED`). -/
def MQTT_CONNECTION_ACCEPTED : Nat := 0

/-- Calls made into collaborators, in program order. -/
inductive Call where
  | mqtt_helper_connect
  | mqtt_helper_publish (result : ei_anomaly_msg)
  | k_work_schedule (seconds : Nat)
  | run_classifier (raw_idx : Nat) (signal : List Rat)
  | mqtt_publish_anomaly (result : ei_anomaly_msg)
  | wdt_feed (channel_id : Int)
  deriving DecidableEq, Repr

/-- File-scope state of `mqtt.c`: the two atomic flags and the count of the
binary semaphore `mqtt_connected_sem` (initial count 0, limit 1). -/
structure Mqtt where
  mqtt_connected : Nat
  mqtt_connecting : Nat
  mqtt_connected_sem : Nat
  deriving DecidableEq, Repr

/-- Initial values: `ATOMIC_INIT(0)`, `ATOMIC_INIT(0)`, `K_SEM_DEFINE(.., 0, 1)`. -/
def Mqtt.init : Mqtt := ⟨0, 0, 0⟩

/-- Function `k_sem_give` on a semaphore of limit 1. -/
def k_sem_give_1 (count : Nat) : Nat := if count < 1 then count + 1 else count

/-- Callback `on_connack(return_code, session_present)`. -/
def on_connack (return_code : Nat) (session_present : Bool) (m : Mqtt) : Mqtt × List Call :=
  let _ := session_present
  let m := { m with mqtt_connecting := 0 }
  if return_code = MQTT_CONNECTION_ACCEPTED then
    ({ m with mqtt_connected := 1, mqtt_connected_sem := k_sem_give_1 m.mqtt_connected_sem }, [])
  else
    (m, [])

/-- Callback `on_disconnect(result)`. -/
def on_disconnect (result : Int) (m : Mqtt) : Mqtt × List Call :=
  let _ := result
  ({ m with mqtt_connected := 0, mqtt_connecting := 0 }, [Call.k_work_schedule 5])

/-- A callback the MQTT helper may deliver. -/
inductive Callback where
  | connack (return_code : Nat) (session_present : Bool)
  | disconnect (result : Int)
  deriving DecidableEq, Repr

/-- Delivery of one callback. -/
def Callback.deliver (cb : Callback) (m : Mqtt) : Mqtt × List Call :=
  match cb with
  | .connack rc sp => on_connack rc sp m
  | .disconnect r => on_disconnect r m

/-- Delivery of a sequence of callbacks, in order. -/
def deliver_all : List Callback → Mqtt → Mqtt × List Call
  | [], m => (m, [])
  | cb :: rest, m =>
    let r := cb.deliver m
    let r2 := deliver_all rest r.1
    (r2.1, r.2 ++ r2.2)

/-- Function `mqtt_connect_broker`. `helper_connect_result` is what
`mqtt_helper_connect` returns; `during_wait` are the callbacks that run while
the caller is blocked in `k_sem_take(&mqtt_connected_sem, K_SECONDS(10))`,
which then takes the semaphore if it was given and times out otherwise. -/
def mqtt_connect_broker (helper_connect_result : Int) (during_wait : List Callback)
    (m : Mqtt) : Mqtt × List Call :=
  if m.mqtt_connected ≠ 0 ∨ m.mqtt_connecting ≠ 0 then
    (m, [])
  else
    let m := { m with mqtt_connecting := 1 }
    if helper_connect_result ≠ 0 then
      ({ m with mqtt_connecting := 0 }, [Call.mqtt_helper_connect, Call.k_work_schedule 5])
    else
      let r := deliver_all during_wait m
      ({ r.1 with mqtt_connected_sem := r.1.mqtt_connected_sem - 1 },
        Call.mqtt_helper_connect :: r.2)

/-- Work item `mqtt_reconnect_work_fn`. -/
def mqtt_reconnect_work_fn (helper_connect_result : Int) (during_wait : List Callback)
    (m : Mqtt) : Mqtt × List Call :=
  if m.mqtt_connected = 0 ∧ m.mqtt_connecting = 0 then
    mqtt_connect_broker helper_connect_result during_wait m
  else
    (m, [])

/-- Function `mqtt_publish_anomaly`: the payload is the formatted message,
kept here as the message itself. The flags are only read. -/
def mqtt_publish_anomaly (result : ei_anomaly_msg) (m : Mqtt) : List Call :=
  if m.mqtt_connected = 0 then []
  else [Call.mqtt_helper_publish result]

/-! ## `main.cpp` -/

/-- Watchdog handles of `main.cpp`: `wdt_dev` (true when non-null) and
`wdt_channel_id`. -/
structure Wdt where
  wdt_dev : Bool
  wdt_channel_id : Int
  deriving DecidableEq, Repr

/-- Function `watchdog_init`: `binding` tells whether `device_get_binding`
returned a device, `install_result` is what `wdt_install_timeout` returns. -/
def watchdog_init (binding : Bool) (install_result : Int) : Wdt :=
  if !binding then
    { wdt_dev := false, wdt_channel_id := -1 }
  else
    { wdt_dev := true, wdt_channel_id := install_result }

/-- Variables of the control loop: the window buffer with its write index and
the locals `fault_counter`, `fault_active`, `last_pub` of `main`. -/
structure LoopState where
  raw_buffer : List Rat
  raw_idx : Nat
  fault_counter : Nat
  fault_active : Bool
  last_pub : Int
  deriving DecidableEq, Repr

/-- State on entry to `while (1)`: zeroed static buffer, `raw_idx = 0`,
`fault_counter = 0`, `fault_active = false`, `last_pub = 0`. -/
def LoopState.init (RAW_COUNT : Nat) : LoopState :=
  { raw_buffer := List.replicate (RAW_SIZE RAW_COUNT) 0, raw_idx := 0,
    fault_counter := 0, fault_active := false, last_pub := 0 }

/-- One classified frame as the loop sees it: `result.anomaly`, the value of
`k_uptime_get()` and the connection flags at the time of the publish call. -/
structure Frame where
  distance : Rat
  now : Int
  mqtt : Mqtt
  deriving DecidableEq, Repr

/-- Lines 143-174 of `main`: anomaly test, fault confirmation and the MQTT
publish decision for one classified frame. -/
def classified_frame (f : Frame) (s : LoopState) : LoopState × List Call :=
  let distance := f.distance
  let anomaly : Bool := decide (distance > FIXED_THRESHOLD)
  let fault_counter : Nat := if anomaly then (s.fault_counter + 1) % 256 else 0
  let confirmed_fault : Bool := decide (fault_counter ≥ CONSECUTIVE_FAULTS)
  let now := f.now
  if confirmed_fault && !s.fault_active then
    let msg : ei_anomaly_msg := { score := distance, threshold := FIXED_THRESHOLD, status := "FAULT" }
    ({ s with fault_counter := fault_counter, fault_active := true, last_pub := now },
      Call.mqtt_publish_anomaly msg :: mqtt_publish_anomaly msg f.mqtt)
  else if !confirmed_fault && decide (now - s.last_pub > HEARTBEAT_SECONDS * 1000) then
    let msg : ei_anomaly_msg := { score := distance, threshold := FIXED_THRESHOLD, status := "OK" }
    ({ s with fault_counter := fault_counter, fault_active := false, last_pub := now },
      Call.mqtt_publish_anomaly msg :: mqtt_publish_anomaly msg f.mqtt)
  else
    ({ s with fault_counter := fault_counter }, [])

/-- Lines 176-178 of `main`: the watchdog feed at the bottom of the loop body. -/
def watchdog_feed (w : Wdt) : List Call :=
  if w.wdt_dev && decide (w.wdt_channel_id ≥ 0) then [Call.wdt_feed w.wdt_channel_id] else []

/-- What the environment supplies to one loop iteration after `k_sem_take`
returned: the outcome of `mpu6050_read` (`none` when it returns false), the
behaviour of `run_classifier` on the signal (`none` when it does not return
`EI_IMPULSE_OK`, otherwise `result.anomaly`), the uptime and the connection
flags. -/
structure Tick where
  mpu6050_read : Option (Rat × Rat × Rat)
  run_classifier : List Rat → Option Rat
  k_uptime_get : Int
  mqtt : Mqtt

/-- Body of `while (1)` in `main`, lines 113-178, for one tick. Each
`continue` of the source is a branch that returns at once. -/
def loop_iteration (RAW_COUNT : Nat) (w : Wdt) (t : Tick) (s : LoopState) :
    LoopState × List Call :=
  match t.mpu6050_read with
  | none => (s, [])
  | some (x, y, z) =>
    let x := x / 16384
    let y := y / 16384
    let z := z / 16384
    let s := { s with raw_buffer := s.raw_buffer.set s.raw_idx x, raw_idx := s.raw_idx + 1 }
    let s := { s with raw_buffer := s.raw_buffer.set s.raw_idx y, raw_idx := s.raw_idx + 1 }
    let s := { s with raw_buffer := s.raw_buffer.set s.raw_idx z, raw_idx := s.raw_idx + 1 }
    if s.raw_idx < RAW_SIZE RAW_COUNT then
      (s, [])
    else
      let s := { s with raw_idx := 0 }
      let invoked := Call.run_classifier s.raw_idx s.raw_buffer
      match t.run_classifier s.raw_buffer with
      | none => (s, [invoked])
      | some distance =>
        let r := classified_frame { distance := distance, now := t.k_uptime_get, mqtt := t.mqtt } s
        (r.1, invoked :: (r.2 ++ watchdog_feed w))

/-- State after a sequence of loop iterations. -/
def run_loop (RAW_COUNT : Nat) (w : Wdt) : List Tick → LoopState → LoopState
  | [], s => s
  | t :: ts, s => run_loop RAW_COUNT w ts (loop_iteration RAW_COUNT w t s).1

/-- Number of samples appended since the write index was last reset, read off
the execution: a failed read appends nothing, an iteration that appended and
left `raw_idx = 0` has reset the index, any other appended one sample. The
third argument is the number at the start. -/
def samples_since_reset (RAW_COUNT : Nat) (w : Wdt) : List Tick → LoopState → Nat → Nat
  | [], _, n => n
  | t :: ts, s, n =>
    let s1 := (loop_iteration RAW_COUNT w t s).1
    samples_since_reset RAW_COUNT w ts s1
      (match t.mpu6050_read with
       | none => n
       | some _ => if s1.raw_idx = 0 then 0 else n + 1)

/-- State and calls of each frame of a sequence of classified frames. -/
def trace_frames : List Frame → LoopState → List (LoopState × List Call)
  | [], _ => []
  | f :: fs, s => classified_frame f s :: trace_frames fs (classified_frame f s).1

/-- State after a sequence of classified frames. -/
def run_frames : List Frame → LoopState → LoopState
  | [], s => s
  | f :: fs, s => run_frames fs (classified_frame f s).1

/-- Whether the calls of a frame contain `mqtt_publish_anomaly` with the given status. -/
def publishes (status : String) (calls : List Call) : Bool :=
  calls.any fun c =>
    match c with
    | Call.mqtt_publish_anomaly msg => msg.status == status
    | _ => false

/-- Number of `mqtt_publish_anomaly` calls with the given status. -/
def count_publishes (status : String) (calls : List Call) : Nat :=
  calls.countP fun c =>
    match c with
    | Call.mqtt_publish_anomaly msg => msg.status == status
    | _ => false

/-- Number of `mqtt_helper_publish` calls, the publishes that reach the transport. -/
def count_transport (calls : List Call) : Nat :=
  calls.countP fun c =>
    match c with
    | Call.mqtt_helper_publish _ => true
    | _ => false

/-- Number of `wdt_feed` calls. -/
def count_feeds (calls : List Call) : Nat :=
  calls.countP fun c =>
    match c with
    | Call.wdt_feed _ => true
    | _ => false

/-- Frames with the given scores arriving one per second, the first at uptime
`t` milliseconds, the broker connected throughout. -/
def frames_from (t : Int) : List Rat → List Frame
  | [] => []
  | d :: ds => { distance := d, now := t, mqtt := ⟨1, 0, 0⟩ } :: frames_from (t + 1000) ds

/-- Frames with the given scores arriving one per second from `t = 1 s`, the
broker connected throughout. -/
def frames_at_1Hz (scores : List Rat) : List Frame := frames_from 1000 scores

/-! ## `mpu6050.cpp`, `get_data` and the sampling semaphore -/

/-- The six bytes `raw[6]` that `i2c_write_read` stores from `REG_ACCEL_XOUT_H`
on; each is a `uint8_t`, read `% 256`. -/
structure AccelRegs where
  raw0 : Nat
  raw1 : Nat
  raw2 : Nat
  raw3 : Nat
  raw4 : Nat
  raw5 : Nat
  deriving DecidableEq, Repr

/-- Conversion of an `int` to `int16_t` (two's complement wrap). -/
def int16_t (v : Int) : Int := (v + 32768) % 65536 - 32768

/-- Function `mpu6050_read`. `i2c_dev` tells whether the device pointer is
non-null, `i2c_write_read` is `none` when the bus transfer returns non-zero and
the six bytes otherwise. The output pointers are the addresses of locals of
`main`, never null. The result is `none` when the function returns false and
the values stored in `*x`, `*y`, `*z` otherwise. -/
def mpu6050_read (i2c_dev : Bool) (i2c_write_read : Option AccelRegs) :
    Option (Rat × Rat × Rat) :=
  if !i2c_dev then none
  else
    match i2c_write_read with
    | none => none
    | some raw =>
      let xi : Int := int16_t ((((raw.raw0 % 256) <<< 8) ||| (raw.raw1 % 256) : Nat) : Int)
      let yi : Int := int16_t ((((raw.raw2 % 256) <<< 8) ||| (raw.raw3 % 256) : Nat) : Int)
      let zi : Int := int16_t ((((raw.raw4 % 256) <<< 8) ||| (raw.raw5 % 256) : Nat) : Int)
      let scale : Rat := 16384
      some ((xi : Rat) / scale, (yi : Rat) / scale, (zi : Rat) / scale)

/-- Callback `get_data(offset, length, out)`: the `length` floats copied into
`out` from `raw_buffer + offset`, and the return value. -/
def get_data (raw_buffer : List Rat) (offset length : Nat) : List Rat × Int :=
  ((raw_buffer.drop offset).take length, 0)

/-- Outcomes of the successful sensor reads of a sequence of ticks, in
acquisition order. -/
def successful_reads : List Tick → List (Rat × Rat × Rat)
  | [] => []
  | t :: ts =>
    match t.mpu6050_read with
    | none => successful_reads ts
    | some v => v :: successful_reads ts

/-- Layout `[x0,y0,z0, x1,y1,z1, ...]` of the values the loop writes for a
sequence of readings (each reading divided by 16384 at lines 121-123). -/
def frame_layout : List (Rat × Rat × Rat) → List Rat
  | [] => []
  | (x, y, z) :: vs => x / 16384 :: y / 16384 :: z / 16384 :: frame_layout vs

/-- What happens on `sample_sem`: the timer interrupt fires, or the loop
reaches `k_sem_take(&sample_sem, K_FOREVER)`. -/
inductive SemEvent where
  | tick
  | take
  deriving DecidableEq, Repr

/-- The semaphore `K_SEM_DEFINE(sample_sem, 0, 1)` together with its only
taker, the control loop: `count` is the number of pending wakes, `waiting`
tells whether the loop is pended inside `k_sem_take(&sample_sem, K_FOREVER)`,
`iterations` counts the returns of that call, each of which starts one loop
iteration. -/
structure SampleSem where
  count : Nat
  waiting : Bool
  iterations : Nat
  deriving DecidableEq, Repr

/-- Initial count 0, the loop not yet at its first `k_sem_take`. -/
def SampleSem.init : SampleSem := { count := 0, waiting := false, iterations := 0 }

/-- Timer callback `timer_cb`: `k_sem_give(&sample_sem)`. A loop pended in
`k_sem_take` is released at once (its call returns and the count is not
raised); otherwise the count goes up unless it is at the limit 1. -/
def timer_cb (s : SampleSem) : SampleSem :=
  if s.waiting then { s with waiting := false, iterations := s.iterations + 1 }
  else { s with count := k_sem_give_1 s.count }

/-- The loop reaches `k_sem_take(&sample_sem, K_FOREVER)`: with a pending wake
the count drops by one and the call returns; with none the loop pends until
the next give. A loop that is already pended cannot reach the call, so such an
event changes nothing. -/
def k_sem_take (s : SampleSem) : SampleSem :=
  if s.waiting then s
  else if 0 < s.count then { s with count := s.count - 1, iterations := s.iterations + 1 }
  else { s with waiting := true }

/-- State of `sample_sem` and the loop after a sequence of events. -/
def sample_sem_run : List SemEvent → SampleSem → SampleSem
  | [], s => s
  | SemEvent.tick :: es, s => sample_sem_run es (timer_cb s)
  | SemEvent.take :: es, s => sample_sem_run es (k_sem_take s)

end EdgeAI

namespace EdgeAI

/-! ## Fault confirmation and publish policy -/

/-- The three outcomes of a classified frame, by the value `c` of the counter
after the confirmation update: FAULT branch. -/
theorem classified_frame_fault (f : Frame) (s : LoopState)
    (hc : CONSECUTIVE_FAULTS ≤
      (if f.distance > FIXED_THRESHOLD then (s.fault_counter + 1) % 256 else 0))
    (ha : s.fault_active = false) :
    classified_frame f s =
      ({ s with
          fault_counter := if f.distance > FIXED_THRESHOLD then (s.fault_counter + 1) % 256 else 0,
          fault_active := true, last_pub := f.now },
        Call.mqtt_publish_anomaly ⟨f.distance, FIXED_THRESHOLD, "FAULT"⟩ ::
          mqtt_publish_anomaly ⟨f.distance, FIXED_THRESHOLD, "FAULT"⟩ f.mqtt) := by
  unfold classified_frame
  by_cases h : f.distance > FIXED_THRESHOLD
  · simp only [h, if_true] at hc
    simp [h, hc, ha]
  · simp [h, CONSECUTIVE_FAULTS] at hc

/-- Heartbeat branch of a classified frame. -/
theorem classified_frame_ok (f : Frame) (s : LoopState)
    (hc : (if f.distance > FIXED_THRESHOLD then (s.fault_counter + 1) % 256 else 0) <
      CONSECUTIVE_FAULTS)
    (ht : f.now - s.last_pub > HEARTBEAT_SECONDS * 1000) :
    classified_frame f s =
      ({ s with
          fault_counter := if f.distance > FIXED_THRESHOLD then (s.fault_counter + 1) % 256 else 0,
          fault_active := false, last_pub := f.now },
        Call.mqtt_publish_anomaly ⟨f.distance, FIXED_THRESHOLD, "OK"⟩ ::
          mqtt_publish_anomaly ⟨f.distance, FIXED_THRESHOLD, "OK"⟩ f.mqtt) := by
  unfold classified_frame
  by_cases h : f.distance > FIXED_THRESHOLD
  · simp only [h, if_true] at hc
    simp [h, hc, ht, Nat.not_le.mpr hc]
  · simp [h, ht, CONSECUTIVE_FAULTS]

/-- Silent branch of a classified frame: only the counter changes. -/
theorem classified_frame_silent (f : Frame) (s : LoopState)
    (h1 : CONSECUTIVE_FAULTS ≤
        (if f.distance > FIXED_THRESHOLD then (s.fault_counter + 1) % 256 else 0) →
      s.fault_active = true)
    (h2 : (if f.distance > FIXED_THRESHOLD then (s.fault_counter + 1) % 256 else 0) <
        CONSECUTIVE_FAULTS →
      f.now - s.last_pub ≤ HEARTBEAT_SECONDS * 1000) :
    classified_frame f s =
      ({ s with
          fault_counter := if f.distance > FIXED_THRESHOLD then (s.fault_counter + 1) % 256 else 0 },
        []) := by
  unfold classified_frame
  by_cases h : f.distance > FIXED_THRESHOLD
  · simp only [h, if_true] at h1 h2
    by_cases hc : CONSECUTIVE_FAULTS ≤ (s.fault_counter + 1) % 256
    · simp [h, hc, h1 hc]
    · simp [h, hc, Int.not_lt.mpr (h2 (Nat.not_le.mp hc))]
  · simp only [h, if_false] at h1 h2
    have := h2 (by decide)
    simp [h, CONSECUTIVE_FAULTS, Int.not_lt.mpr this]

/-- The counter after a frame: incremented modulo 256 on an anomalous score,
zero otherwise. -/
theorem classified_frame_counter (f : Frame) (s : LoopState) :
    (classified_frame f s).1.fault_counter =
      if f.distance > FIXED_THRESHOLD then (s.fault_counter + 1) % 256 else 0 := by
  by_cases hc : CONSECUTIVE_FAULTS ≤
      (if f.distance > FIXED_THRESHOLD then (s.fault_counter + 1) % 256 else 0)
  · by_cases ha : s.fault_active = false
    · rw [classified_frame_fault f s hc ha]
    · rw [classified_frame_silent f s (fun _ => by simpa using ha)
        (fun h => absurd hc (Nat.not_le.mpr h))]
  · by_cases ht : f.now - s.last_pub > HEARTBEAT_SECONDS * 1000
    · rw [classified_frame_ok f s (Nat.not_le.mp hc) ht]
    · rw [classified_frame_silent f s (fun h => absurd h hc) (fun _ => Int.not_lt.mp ht)]

/-- A frame that leaves the counter below the confirmation count publishes no
FAULT and cannot set the latch. -/
theorem classified_frame_below (f : Frame) (s : LoopState)
    (hc : (classified_frame f s).1.fault_counter < CONSECUTIVE_FAULTS) :
    publishes "FAULT" (classified_frame f s).2 = false ∧
      count_publishes "FAULT" (classified_frame f s).2 = 0 ∧
      ((classified_frame f s).1.fault_active = true → s.fault_active = true) := by
  rw [classified_frame_counter] at hc
  by_cases ht : f.now - s.last_pub > HEARTBEAT_SECONDS * 1000
  · rw [classified_frame_ok f s hc ht]
    by_cases hm : f.mqtt.mqtt_connected = 0 <;>
      simp [publishes, count_publishes, mqtt_publish_anomaly, hm]
  · rw [classified_frame_silent f s (fun h => absurd h (Nat.not_le.mpr hc))
      (fun _ => Int.not_lt.mp ht)]
    simp [publishes, count_publishes]

/-- A frame that brings the counter to the confirmation count while the latch
is clear publishes FAULT once, sets the latch and records the time. -/
theorem classified_frame_raise (f : Frame) (s : LoopState)
    (hc : CONSECUTIVE_FAULTS ≤ (classified_frame f s).1.fault_counter)
    (ha : s.fault_active = false) :
    publishes "FAULT" (classified_frame f s).2 = true ∧
      count_publishes "FAULT" (classified_frame f s).2 = 1 ∧
      (classified_frame f s).1.fault_active = true ∧
      (classified_frame f s).1.last_pub = f.now := by
  rw [classified_frame_counter] at hc
  rw [classified_frame_fault f s hc ha]
  by_cases hm : f.mqtt.mqtt_connected = 0 <;>
    simp [publishes, count_publishes, mqtt_publish_anomaly, hm]

/-- C1 (hysteresis raise). From a state with counter 0 and latch clear:
(a) `CONSECUTIVE_FAULTS - 1` frames above the threshold followed by one frame
at or below it never set the latch and never publish FAULT; (b)
`CONSECUTIVE_FAULTS` frames above the threshold set the latch and publish
FAULT (once) at the last of them and at no earlier one. -/
theorem hysteresis_raise (s : LoopState) (hc : s.fault_counter = 0)
    (ha : s.fault_active = false) :
    (∀ (fs : List Frame) (g : Frame), fs.length = CONSECUTIVE_FAULTS - 1 →
        (∀ f ∈ fs, f.distance > FIXED_THRESHOLD) → g.distance ≤ FIXED_THRESHOLD →
        ∀ e ∈ trace_frames (fs ++ [g]) s,
          e.1.fault_active = false ∧ publishes "FAULT" e.2 = false) ∧
    (∀ (fs : List Frame), fs.length = CONSECUTIVE_FAULTS →
        (∀ f ∈ fs, f.distance > FIXED_THRESHOLD) →
        ∃ early last, trace_frames fs s = early ++ [last] ∧
          last.1.fault_active = true ∧ publishes "FAULT" last.2 = true ∧
          count_publishes "FAULT" last.2 = 1 ∧
          ∀ e ∈ early, e.1.fault_active = false ∧ publishes "FAULT" e.2 = false) := by
  have first : ∀ a : Frame, a.distance > FIXED_THRESHOLD →
      (classified_frame a s).1.fault_counter = 1 := by
    intro a h
    rw [classified_frame_counter, if_pos h, hc]
  have second : ∀ a b : Frame, a.distance > FIXED_THRESHOLD → b.distance > FIXED_THRESHOLD →
      (classified_frame b (classified_frame a s).1).1.fault_counter = 2 := by
    intro a b h1 h2
    rw [classified_frame_counter, if_pos h2, first a h1]
  have off : ∀ (f : Frame) (t : LoopState),
      (classified_frame f t).1.fault_counter < CONSECUTIVE_FAULTS → t.fault_active = false →
      (classified_frame f t).1.fault_active = false ∧
        publishes "FAULT" (classified_frame f t).2 = false := by
    intro f t h1 h2
    obtain ⟨p, -, q⟩ := classified_frame_below f t h1
    refine ⟨?_, p⟩
    cases hfa : (classified_frame f t).1.fault_active
    · rfl
    · rw [q hfa] at h2; cases h2
  constructor
  · intro fs g hlen hfs hg
    match fs, hlen, hfs with
    | [a, b], _, hfs =>
      have h1 := hfs a (by simp)
      have h2 := hfs b (by simp)
      have e1 := off a s (by rw [first a h1]; decide) ha
      have e2 := off b _ (by rw [second a b h1 h2]; decide) e1.1
      have e3 := off g (classified_frame b (classified_frame a s).1).1
        (by rw [classified_frame_counter, if_neg (not_lt.mpr hg)]; decide) e2.1
      intro e he
      simp only [List.cons_append, List.nil_append, trace_frames, List.mem_cons,
        List.mem_singleton, List.not_mem_nil, or_false] at he
      rcases he with rfl | rfl | rfl
      · exact e1
      · exact e2
      · exact e3
  · intro fs hlen hfs
    match fs, hlen, hfs with
    | [a, b, c], _, hfs =>
      have h1 := hfs a (by simp)
      have h2 := hfs b (by simp)
      have h3 := hfs c (by simp)
      have e1 := off a s (by rw [first a h1]; decide) ha
      have e2 := off b _ (by rw [second a b h1 h2]; decide) e1.1
      have e3 := classified_frame_raise c (classified_frame b (classified_frame a s).1).1
        (by rw [classified_frame_counter, if_pos h3, second a b h1 h2]; decide) e2.1
      refine ⟨[classified_frame a s, classified_frame b (classified_frame a s).1],
        classified_frame c (classified_frame b (classified_frame a s).1).1, ?_,
        e3.2.2.1, e3.1, e3.2.1, ?_⟩
      · simp [trace_frames]
      · intro e he
        simp only [List.mem_cons, List.mem_singleton, List.not_mem_nil, or_false] at he
        rcases he with rfl | rfl
        · exact e1
        · exact e2

/-- Witness for C1: the initial state with two, respectively three, frames
scoring 310 and a clean frame scoring 100. -/
theorem hysteresis_raise_witness :
    (∀ e ∈ trace_frames ([⟨310, 1000, Mqtt.init⟩, ⟨310, 2000, Mqtt.init⟩] ++
          [⟨100, 3000, Mqtt.init⟩]) (LoopState.init 1),
        e.1.fault_active = false ∧ publishes "FAULT" e.2 = false) ∧
    (∃ early last,
        trace_frames [⟨310, 1000, Mqtt.init⟩, ⟨310, 2000, Mqtt.init⟩, ⟨310, 3000, Mqtt.init⟩]
            (LoopState.init 1) = early ++ [last] ∧
          last.1.fault_active = true ∧ publishes "FAULT" last.2 = true ∧
          count_publishes "FAULT" last.2 = 1 ∧
          ∀ e ∈ early, e.1.fault_active = false ∧ publishes "FAULT" e.2 = false) :=
  ⟨(hysteresis_raise (LoopState.init 1) rfl rfl).1 _ _ (by decide) (by decide) (by decide),
   (hysteresis_raise (LoopState.init 1) rfl rfl).2 _ (by decide) (by decide)⟩

/-- C2, counterexample. Three frames scoring 310 at 1 s, 2 s, 3 s latch the
fault (FAULT published at 3 s); the clean frame scoring 100 at 4 s is inside
the heartbeat window, so the latch flag stays set although the counter is back
to 0. -/
theorem fast_clear_counterexample :
    (run_frames (frames_at_1Hz [310, 310, 310]) (LoopState.init 1)).fault_active = true ∧
    (100 : Rat) ≤ FIXED_THRESHOLD ∧
    (classified_frame ⟨100, 4000, ⟨1, 0, 0⟩⟩
      (run_frames (frames_at_1Hz [310, 310, 310]) (LoopState.init 1))).1.fault_active = true ∧
    (classified_frame ⟨100, 4000, ⟨1, 0, 0⟩⟩
      (run_frames (frames_at_1Hz [310, 310, 310]) (LoopState.init 1))).1.fault_counter = 0 ∧
    ¬ ((classified_frame ⟨100, 4000, ⟨1, 0, 0⟩⟩
          (run_frames (frames_at_1Hz [310, 310, 310]) (LoopState.init 1))).1.fault_active = true ↔
        CONSECUTIVE_FAULTS ≤ (classified_frame ⟨100, 4000, ⟨1, 0, 0⟩⟩
          (run_frames (frames_at_1Hz [310, 310, 310]) (LoopState.init 1))).1.fault_counter) := by
  decide

/-- C2, amended. A frame with score at or below the threshold processed while
the latch flag is set resets the counter to 0 and leaves the flag cleared
exactly when `now - last_pub > HEARTBEAT_SECONDS * 1000` (the OK publish);
inside the heartbeat window the flag stays set and nothing is published. After
every classified frame a counter at or above `CONSECUTIVE_FAULTS` implies the
flag is set. -/
theorem fast_clear_amended (f : Frame) (s : LoopState) (hl : s.fault_active = true)
    (hs : f.distance ≤ FIXED_THRESHOLD) :
    (classified_frame f s).1.fault_counter = 0 ∧
    ((classified_frame f s).1.fault_active = false ↔
      f.now - s.last_pub > HEARTBEAT_SECONDS * 1000) ∧
    (f.now - s.last_pub > HEARTBEAT_SECONDS * 1000 →
      publishes "OK" (classified_frame f s).2 = true) ∧
    (f.now - s.last_pub ≤ HEARTBEAT_SECONDS * 1000 → (classified_frame f s).2 = []) ∧
    (∀ (g : Frame) (t : LoopState),
      CONSECUTIVE_FAULTS ≤ (classified_frame g t).1.fault_counter →
      (classified_frame g t).1.fault_active = true) := by
  have hn : ¬ f.distance > FIXED_THRESHOLD := not_lt.mpr hs
  refine ⟨by rw [classified_frame_counter, if_neg hn], ?_, ?_, ?_, ?_⟩
  · by_cases ht : f.now - s.last_pub > HEARTBEAT_SECONDS * 1000
    · rw [classified_frame_ok f s (by rw [if_neg hn]; decide) ht]
      simp [ht]
    · rw [classified_frame_silent f s (by rw [if_neg hn]; intro h; exact absurd h (by decide))
        (fun _ => Int.not_lt.mp ht)]
      simp [ht, hl]
  · intro ht
    rw [classified_frame_ok f s (by rw [if_neg hn]; decide) ht]
    by_cases hm : f.mqtt.mqtt_connected = 0 <;> simp [publishes, mqtt_publish_anomaly, hm]
  · intro ht
    rw [classified_frame_silent f s (by rw [if_neg hn]; intro h; exact absurd h (by decide))
      (fun _ => ht)]
  · intro g t hc
    by_cases ha : t.fault_active = false
    · exact (classified_frame_raise g t hc ha).2.2.1
    · rw [classified_frame_counter] at hc
      rw [classified_frame_silent g t (fun _ => by simpa using ha)
        (fun h => absurd hc (Nat.not_le.mpr h))]
      simpa using ha

/-- Witness for the amended C2: the latched state after three frames scoring
310 and the clean frame at 4 s. -/
theorem fast_clear_amended_witness :
    (classified_frame ⟨100, 4000, ⟨1, 0, 0⟩⟩
      (run_frames (frames_at_1Hz [310, 310, 310]) (LoopState.init 1))).1.fault_counter = 0 ∧
    (classified_frame ⟨100, 4000, ⟨1, 0, 0⟩⟩
      (run_frames (frames_at_1Hz [310, 310, 310]) (LoopState.init 1))).2 = [] :=
  ⟨(fast_clear_amended ⟨100, 4000, ⟨1, 0, 0⟩⟩
      (run_frames (frames_at_1Hz [310, 310, 310]) (LoopState.init 1))
      (by decide) (by decide)).1,
   (fast_clear_amended ⟨100, 4000, ⟨1, 0, 0⟩⟩
      (run_frames (frames_at_1Hz [310, 310, 310]) (LoopState.init 1))
      (by decide) (by decide)).2.2.2.1 (by decide)⟩

/-- C3, counterexample. FAULT is published at 3 s; a clean frame at 4 s and
two anomalous frames at 5 s and 6 s leave counter 2 with the latch flag still
set; the anomalous frame at 7 s brings the counter from 2 to 3 and the loop
publishes nothing and keeps `last_pub = 3000`. -/
theorem fault_on_rising_edge_counterexample :
    (run_frames (frames_at_1Hz [310, 310, 310, 100, 310, 310])
      (LoopState.init 1)).fault_counter = 2 ∧
    (classified_frame ⟨310, 7000, ⟨1, 0, 0⟩⟩
      (run_frames (frames_at_1Hz [310, 310, 310, 100, 310, 310])
        (LoopState.init 1))).1.fault_counter = 3 ∧
    (classified_frame ⟨310, 7000, ⟨1, 0, 0⟩⟩
      (run_frames (frames_at_1Hz [310, 310, 310, 100, 310, 310])
        (LoopState.init 1))).2 = [] ∧
    (classified_frame ⟨310, 7000, ⟨1, 0, 0⟩⟩
      (run_frames (frames_at_1Hz [310, 310, 310, 100, 310, 310])
        (LoopState.init 1))).1.last_pub = 3000 := by
  decide

/-- C3, amended. When a classified frame leaves the counter at or above
`CONSECUTIVE_FAULTS` (in particular when it brings it there from below) and
the latch flag is clear, the loop calls `mqtt_publish_anomaly` with status FAULT once at that
frame, sets the flag and sets `last_pub` to the current time; when the flag is
still set the frame publishes nothing and leaves `last_pub` unchanged. -/
theorem fault_on_rising_edge_amended (f : Frame) (s : LoopState)
    (hnow : CONSECUTIVE_FAULTS ≤ (classified_frame f s).1.fault_counter) :
    (s.fault_active = false →
      publishes "FAULT" (classified_frame f s).2 = true ∧
      count_publishes "FAULT" (classified_frame f s).2 = 1 ∧
      (classified_frame f s).1.fault_active = true ∧
      (classified_frame f s).1.last_pub = f.now) ∧
    (s.fault_active = true →
      (classified_frame f s).2 = [] ∧ (classified_frame f s).1.last_pub = s.last_pub) := by
  refine ⟨fun ha => classified_frame_raise f s hnow ha, fun ha => ?_⟩
  rw [classified_frame_counter] at hnow
  rw [classified_frame_silent f s (fun _ => ha) (fun h => absurd hnow (Nat.not_le.mpr h))]
  exact ⟨rfl, rfl⟩

/-- Witness for the amended C3: two frames scoring 310 from the initial state,
then a third. -/
theorem fault_on_rising_edge_amended_witness :
    publishes "FAULT" (classified_frame ⟨310, 3000, ⟨1, 0, 0⟩⟩
      (run_frames (frames_at_1Hz [310, 310]) (LoopState.init 1))).2 = true ∧
    (classified_frame ⟨310, 3000, ⟨1, 0, 0⟩⟩
      (run_frames (frames_at_1Hz [310, 310]) (LoopState.init 1))).1.last_pub = 3000 :=
  ⟨((fault_on_rising_edge_amended ⟨310, 3000, ⟨1, 0, 0⟩⟩
      (run_frames (frames_at_1Hz [310, 310]) (LoopState.init 1))
      (by decide)).1 (by decide)).1,
   ((fault_on_rising_edge_amended ⟨310, 3000, ⟨1, 0, 0⟩⟩
      (run_frames (frames_at_1Hz [310, 310]) (LoopState.init 1))
      (by decide)).1 (by decide)).2.2.2⟩

/-- C4, counterexample. On the scenario scores at 1 frame per second the latch
is still clear after the 5th score and nothing is published at 5 s, nothing is
published at 7 s either, and the whole run makes one `mqtt_publish_anomaly`
call, not two. -/
theorem scenario_counterexample :
    (run_frames (frames_at_1Hz [310, 320, 290, 305, 306])
      (LoopState.init 1)).fault_active = false ∧
    ((trace_frames (frames_at_1Hz [310, 320, 290, 305, 306, 307, 100])
      (LoopState.init 1)).map Prod.snd)[4]? = some [] ∧
    ((trace_frames (frames_at_1Hz [310, 320, 290, 305, 306, 307, 100])
      (LoopState.init 1)).map Prod.snd)[6]? = some [] ∧
    ((trace_frames (frames_at_1Hz [310, 320, 290, 305, 306, 307, 100])
      (LoopState.init 1)).map
        (fun e => count_publishes "FAULT" e.2 + count_publishes "OK" e.2)).sum = 1 := by
  decide

/-- C4, amended. With threshold 300, C = 3, heartbeat 10 s, the broker
connected, the initial state and scores [310,320,290,305,306,307,100] at
t = 1 s .. 7 s: the counter runs 1, 2, 0, 1, 2, 3, 0; the latch is set at the
6th score; FAULT is published once, at t = 6 s, and reaches the transport; no
OK is published by t = 7 s, where the latch flag is still set. -/
theorem scenario_amended :
    (trace_frames (frames_at_1Hz [310, 320, 290, 305, 306, 307, 100])
      (LoopState.init 1)).map (fun e => (e.1.fault_counter, e.1.fault_active, e.1.last_pub, e.2)) =
      [(1, false, 0, []), (2, false, 0, []), (0, false, 0, []), (1, false, 0, []),
       (2, false, 0, []),
       (3, true, 6000,
         [Call.mqtt_publish_anomaly ⟨307, 300, "FAULT"⟩,
          Call.mqtt_helper_publish ⟨307, 300, "FAULT"⟩]),
       (0, true, 6000, [])] := by
  decide

/-- Every classified frame takes one of the three branches. -/
theorem classified_frame_cases (f : Frame) (s : LoopState) :
    (s.fault_active = false ∧ (classified_frame f s).1.fault_active = true ∧
        publishes "FAULT" (classified_frame f s).2 = true ∧
        publishes "OK" (classified_frame f s).2 = false ∧
        CONSECUTIVE_FAULTS ≤ (classified_frame f s).1.fault_counter) ∨
    ((classified_frame f s).1.fault_active = false ∧
        publishes "OK" (classified_frame f s).2 = true ∧
        publishes "FAULT" (classified_frame f s).2 = false ∧
        (classified_frame f s).1.fault_counter < CONSECUTIVE_FAULTS ∧
        f.now - s.last_pub > HEARTBEAT_SECONDS * 1000) ∨
    ((classified_frame f s).1.fault_active = s.fault_active ∧
        (classified_frame f s).2 = [] ∧
        (classified_frame f s).1.last_pub = s.last_pub ∧
        (CONSECUTIVE_FAULTS ≤ (classified_frame f s).1.fault_counter → s.fault_active = true) ∧
        ((classified_frame f s).1.fault_counter < CONSECUTIVE_FAULTS →
          f.now - s.last_pub ≤ HEARTBEAT_SECONDS * 1000)) := by
  have hcnt := classified_frame_counter f s
  by_cases hc : CONSECUTIVE_FAULTS ≤ (classified_frame f s).1.fault_counter
  · by_cases ha : s.fault_active = false
    · left
      obtain ⟨p, -, q, -⟩ := classified_frame_raise f s hc ha
      refine ⟨ha, q, p, ?_, hc⟩
      rw [hcnt] at hc
      rw [classified_frame_fault f s hc ha]
      by_cases hm : f.mqtt.mqtt_connected = 0 <;> simp [publishes, mqtt_publish_anomaly, hm]
    · right; right
      have ha1 : s.fault_active = true := by simpa using ha
      have hc1 := hc
      rw [hcnt] at hc1
      have e := classified_frame_silent f s (fun _ => ha1)
        (fun h => absurd hc1 (Nat.not_le.mpr h))
      refine ⟨by rw [e], by rw [e], by rw [e], fun _ => ha1,
        fun h => absurd hc (Nat.not_le.mpr h)⟩
  · have hlt := Nat.not_le.mp hc
    by_cases ht : f.now - s.last_pub > HEARTBEAT_SECONDS * 1000
    · right; left
      have hlt1 := hlt
      rw [hcnt] at hlt1
      have e := classified_frame_ok f s hlt1 ht
      refine ⟨by rw [e], ?_, (classified_frame_below f s hlt).1, hlt, ht⟩
      rw [e]
      by_cases hm : f.mqtt.mqtt_connected = 0 <;> simp [publishes, mqtt_publish_anomaly, hm]
    · right; right
      have hc1 := hc
      rw [hcnt] at hc1
      have e := classified_frame_silent f s (fun h => absurd h hc1) (fun _ => Int.not_lt.mp ht)
      refine ⟨by rw [e], by rw [e], by rw [e], fun h => absurd h hc, fun _ => Int.not_lt.mp ht⟩

/-- Running a concatenation is running the parts in turn. -/
theorem run_frames_append (xs ys : List Frame) (s : LoopState) :
    run_frames (xs ++ ys) s = run_frames ys (run_frames xs s) := by
  induction xs generalizing s with
  | nil => rfl
  | cons x xs ih => simp [run_frames, ih]

/-- While the latch flag is set, a FAULT publish after the frames `mid` needs
an OK publish that cleared the flag at one of them. -/
theorem ok_before_next_fault (mid : List Frame) (fj : Frame) (t : LoopState)
    (ht : t.fault_active = true)
    (hj : publishes "FAULT" (classified_frame fj (run_frames mid t)).2 = true) :
    ∃ m1 fk m2, mid = m1 ++ fk :: m2 ∧
      (run_frames m1 t).fault_active = true ∧
      publishes "OK" (classified_frame fk (run_frames m1 t)).2 = true ∧
      (classified_frame fk (run_frames m1 t)).1.fault_active = false := by
  induction mid generalizing t with
  | nil =>
    rcases classified_frame_cases fj t with h | h | h
    · simp [run_frames] at *
      rw [ht] at h; exact absurd h.1 (by decide)
    · simp only [run_frames] at hj
      rw [h.2.2.1] at hj; exact absurd hj (by decide)
    · simp only [run_frames] at hj
      rw [h.2.1] at hj; exact absurd hj (by decide)
  | cons g rest ih =>
    cases hg : (classified_frame g t).1.fault_active
    · refine ⟨[], g, rest, rfl, ht, ?_, hg⟩
      rcases classified_frame_cases g t with h | h | h
      · rw [h.2.1] at hg; cases hg
      · exact h.2.1
      · rw [h.1, ht] at hg; cases hg
    · obtain ⟨m1, fk, m2, e, p, q, r⟩ := ih (classified_frame g t).1 hg hj
      exact ⟨g :: m1, fk, m2, by rw [e]; rfl, p, q, r⟩

/-- C5 (FAULT publish gating). If FAULT is published at a frame `fi` and again
at a later frame `fj`, then one of the frames in between found the latch flag
set, published OK and left the flag cleared. And a frame that finds the flag
set and leaves the counter at or above `CONSECUTIVE_FAULTS` makes no call at
all. -/
theorem fault_publish_gating (pre mid : List Frame) (fi fj : Frame) (s : LoopState)
    (hi : publishes "FAULT" (classified_frame fi (run_frames pre s)).2 = true)
    (hj : publishes "FAULT"
      (classified_frame fj (run_frames (pre ++ fi :: mid) s)).2 = true) :
    (∃ m1 fk m2, mid = m1 ++ fk :: m2 ∧
      (run_frames (pre ++ fi :: m1) s).fault_active = true ∧
      publishes "OK" (classified_frame fk (run_frames (pre ++ fi :: m1) s)).2 = true ∧
      (classified_frame fk (run_frames (pre ++ fi :: m1) s)).1.fault_active = false) ∧
    (∀ (g : Frame) (t : LoopState), t.fault_active = true →
      CONSECUTIVE_FAULTS ≤ (classified_frame g t).1.fault_counter →
      (classified_frame g t).2 = []) := by
  have split : ∀ m : List Frame, run_frames (pre ++ fi :: m) s =
      run_frames m (classified_frame fi (run_frames pre s)).1 := by
    intro m
    rw [run_frames_append]
    rfl
  constructor
  · have hset : (classified_frame fi (run_frames pre s)).1.fault_active = true := by
      rcases classified_frame_cases fi (run_frames pre s) with h | h | h
      · exact h.2.1
      · rw [h.2.2.1] at hi; cases hi
      · rw [h.2.1] at hi; exact absurd hi (by decide)
    rw [split] at hj
    obtain ⟨m1, fk, m2, e, p, q, r⟩ := ok_before_next_fault mid fj _ hset hj
    refine ⟨m1, fk, m2, e, ?_, ?_, ?_⟩ <;> rw [split]
    · exact p
    · exact q
    · exact r
  · intro g t ht hc
    rcases classified_frame_cases g t with h | h | h
    · rw [ht] at h; exact absurd h.1 (by decide)
    · exact absurd hc (Nat.not_le.mpr h.2.2.2.1)
    · exact h.2.1

/-- Witness for C5: FAULT at 3 s, a clean frame at 14 s (OK, latch cleared),
then FAULT again at 17 s. -/
theorem fault_publish_gating_witness :
    ∃ m1 fk m2,
      ([⟨100, 14000, ⟨1, 0, 0⟩⟩, ⟨310, 15000, ⟨1, 0, 0⟩⟩, ⟨310, 16000, ⟨1, 0, 0⟩⟩] : List Frame) =
        m1 ++ fk :: m2 ∧
      (run_frames ([⟨310, 1000, ⟨1, 0, 0⟩⟩, ⟨310, 2000, ⟨1, 0, 0⟩⟩] ++
        ⟨310, 3000, ⟨1, 0, 0⟩⟩ :: m1) (LoopState.init 1)).fault_active = true ∧
      publishes "OK" (classified_frame fk
        (run_frames ([⟨310, 1000, ⟨1, 0, 0⟩⟩, ⟨310, 2000, ⟨1, 0, 0⟩⟩] ++
          ⟨310, 3000, ⟨1, 0, 0⟩⟩ :: m1) (LoopState.init 1))).2 = true ∧
      (classified_frame fk
        (run_frames ([⟨310, 1000, ⟨1, 0, 0⟩⟩, ⟨310, 2000, ⟨1, 0, 0⟩⟩] ++
          ⟨310, 3000, ⟨1, 0, 0⟩⟩ :: m1) (LoopState.init 1))).1.fault_active = false :=
  (fault_publish_gating [⟨310, 1000, ⟨1, 0, 0⟩⟩, ⟨310, 2000, ⟨1, 0, 0⟩⟩]
    [⟨100, 14000, ⟨1, 0, 0⟩⟩, ⟨310, 15000, ⟨1, 0, 0⟩⟩, ⟨310, 16000, ⟨1, 0, 0⟩⟩]
    ⟨310, 3000, ⟨1, 0, 0⟩⟩ ⟨310, 17000, ⟨1, 0, 0⟩⟩ (LoopState.init 1)
    (by decide) (by decide)).1

/-- C6 (OK heartbeat condition). At every classified frame the loop publishes
OK iff `now - last_pub > HEARTBEAT_SECONDS * 1000` and the counter after the
confirmation update is below `CONSECUTIVE_FAULTS`; an OK publish is a single
call and sets `last_pub = now`; with the counter below `CONSECUTIVE_FAULTS`
and inside the heartbeat window nothing is published and `last_pub` keeps its
value. -/
theorem ok_heartbeat_condition (f : Frame) (s : LoopState) :
    (publishes "OK" (classified_frame f s).2 = true ↔
      (f.now - s.last_pub > HEARTBEAT_SECONDS * 1000 ∧
        (classified_frame f s).1.fault_counter < CONSECUTIVE_FAULTS)) ∧
    (publishes "OK" (classified_frame f s).2 = true →
      count_publishes "OK" (classified_frame f s).2 = 1 ∧
      (classified_frame f s).1.last_pub = f.now) ∧
    ((classified_frame f s).1.fault_counter < CONSECUTIVE_FAULTS →
      f.now - s.last_pub ≤ HEARTBEAT_SECONDS * 1000 →
      (classified_frame f s).2 = [] ∧ (classified_frame f s).1.last_pub = s.last_pub) := by
  have key : f.now - s.last_pub > HEARTBEAT_SECONDS * 1000 →
      (classified_frame f s).1.fault_counter < CONSECUTIVE_FAULTS →
      count_publishes "OK" (classified_frame f s).2 = 1 ∧
        (classified_frame f s).1.last_pub = f.now := by
    intro ht hc
    rw [classified_frame_counter] at hc
    rw [classified_frame_ok f s hc ht]
    by_cases hm : f.mqtt.mqtt_connected = 0 <;>
      simp [count_publishes, mqtt_publish_anomaly, hm]
  rcases classified_frame_cases f s with h | h | h
  · refine ⟨⟨fun p => ?_, fun p => absurd h.2.2.2.2 (Nat.not_le.mpr p.2)⟩, fun p => ?_,
      fun p => absurd h.2.2.2.2 (Nat.not_le.mpr p)⟩ <;>
    · rw [h.2.2.2.1] at p; cases p
  · exact ⟨⟨fun _ => ⟨h.2.2.2.2, h.2.2.2.1⟩, fun _ => h.2.1⟩, fun _ => key h.2.2.2.2 h.2.2.2.1,
      fun _ q => absurd h.2.2.2.2 (Int.not_lt.mpr q)⟩
  · refine ⟨⟨fun p => ?_, fun p => absurd p.1 (Int.not_lt.mpr (h.2.2.2.2 p.2))⟩, fun p => ?_,
      fun _ _ => ⟨h.2.1, h.2.2.1⟩⟩ <;>
    · rw [h.2.1] at p; exact absurd p (by decide)

/-- Frames of a concatenation of scores. -/
theorem frames_from_append (t : Int) (xs ys : List Rat) :
    frames_from t (xs ++ ys) =
      frames_from t xs ++ frames_from (t + 1000 * (xs.length : Int)) ys := by
  induction xs generalizing t with
  | nil => simp [frames_from]
  | cons x xs ih =>
    have h : t + 1000 * ((xs.length : Int) + 1) = t + 1000 + 1000 * (xs.length : Int) := by ring
    show frames_from t (x :: (xs ++ ys)) = _
    simp only [frames_from, List.length_cons, Nat.cast_add, Nat.cast_one, h, List.cons_append, ih]

/-- While the counter does not wrap, anomalous frames keep a confirmed,
latched fault as it is: the counter counts up, the flag stays set, and nothing
is published. -/
theorem run_frames_sticky (d : Rat) (hd : d > FIXED_THRESHOLD) (n : Nat) (t : Int)
    (s : LoopState) (hc : CONSECUTIVE_FAULTS ≤ s.fault_counter) (ha : s.fault_active = true)
    (hn : s.fault_counter + n < 256) :
    (run_frames (frames_from t (List.replicate n d)) s).fault_counter = s.fault_counter + n ∧
    (run_frames (frames_from t (List.replicate n d)) s).fault_active = true ∧
    (run_frames (frames_from t (List.replicate n d)) s).last_pub = s.last_pub := by
  induction n generalizing t s with
  | zero => exact ⟨rfl, ha, rfl⟩
  | succ n ih =>
    simp only [List.replicate_succ, frames_from, run_frames]
    have hcnt : (classified_frame ⟨d, t, ⟨1, 0, 0⟩⟩ s).1.fault_counter = s.fault_counter + 1 := by
      rw [classified_frame_counter, if_pos hd]
      exact Nat.mod_eq_of_lt (by omega)
    have hc1 : CONSECUTIVE_FAULTS ≤ (classified_frame ⟨d, t, ⟨1, 0, 0⟩⟩ s).1.fault_counter := by
      rw [hcnt]; omega
    rcases classified_frame_cases ⟨d, t, ⟨1, 0, 0⟩⟩ s with h | h | h
    · rw [ha] at h; exact absurd h.1 (by decide)
    · exact absurd hc1 (Nat.not_le.mpr h.2.2.2.1)
    · obtain ⟨p, q, r⟩ := ih (t + 1000) (classified_frame ⟨d, t, ⟨1, 0, 0⟩⟩ s).1 hc1
        (by rw [h.1, ha]) (by rw [hcnt]; omega)
      refine ⟨by rw [p, hcnt]; omega, q, by rw [r, h.2.2.1]⟩

/-- C7, the code at the failing input. After 255 consecutive frames scoring
310 (one per second) the counter is 255 and the latch flag is set; the 256th
such frame wraps the 8-bit counter to 0, so the loop publishes OK and clears
the flag at a frame whose score is above the threshold. -/
theorem counter_wrap_clears_latch :
    (run_frames (frames_at_1Hz (List.replicate 255 310)) (LoopState.init 1)).fault_counter = 255 ∧
    (run_frames (frames_at_1Hz (List.replicate 255 310)) (LoopState.init 1)).fault_active = true ∧
    (310 : Rat) > FIXED_THRESHOLD ∧
    (classified_frame ⟨310, 256000, ⟨1, 0, 0⟩⟩
      (run_frames (frames_at_1Hz (List.replicate 255 310)) (LoopState.init 1))).1.fault_counter
        = 0 ∧
    (classified_frame ⟨310, 256000, ⟨1, 0, 0⟩⟩
      (run_frames (frames_at_1Hz (List.replicate 255 310)) (LoopState.init 1))).1.fault_active
        = false ∧
    publishes "OK" (classified_frame ⟨310, 256000, ⟨1, 0, 0⟩⟩
      (run_frames (frames_at_1Hz (List.replicate 255 310)) (LoopState.init 1))).2 = true ∧
    count_transport (classified_frame ⟨310, 256000, ⟨1, 0, 0⟩⟩
      (run_frames (frames_at_1Hz (List.replicate 255 310)) (LoopState.init 1))).2 = 1 := by
  have hd : (310 : Rat) > FIXED_THRESHOLD := by decide
  have e : frames_at_1Hz (List.replicate 255 310) =
      frames_at_1Hz [310, 310, 310] ++ frames_from 4000 (List.replicate 252 310) := by
    have : (List.replicate 255 (310 : Rat)) = [310, 310, 310] ++ List.replicate 252 310 := by
      rw [show (255 : Nat) = 3 + 252 from rfl, List.replicate_add]
      rfl
    rw [frames_at_1Hz, this, frames_from_append]
    rfl
  obtain ⟨p, q, r⟩ := run_frames_sticky 310 hd 252 4000
    (run_frames (frames_at_1Hz [310, 310, 310]) (LoopState.init 1))
    (by decide) (by decide) (by decide)
  rw [e, run_frames_append]
  have p1 : (run_frames (frames_from 4000 (List.replicate 252 310))
      (run_frames (frames_at_1Hz [310, 310, 310]) (LoopState.init 1))).fault_counter = 255 := by
    rw [p]; decide
  have r1 : (run_frames (frames_from 4000 (List.replicate 252 310))
      (run_frames (frames_at_1Hz [310, 310, 310]) (LoopState.init 1))).last_pub = 3000 := by
    rw [r]; decide
  have hwrap : (if (⟨310, 256000, ⟨1, 0, 0⟩⟩ : Frame).distance > FIXED_THRESHOLD then
      ((run_frames (frames_from 4000 (List.replicate 252 310))
        (run_frames (frames_at_1Hz [310, 310, 310]) (LoopState.init 1))).fault_counter + 1) % 256
      else 0) = 0 := by
    rw [if_pos hd, p1]
  have hok := classified_frame_ok ⟨310, 256000, ⟨1, 0, 0⟩⟩
    (run_frames (frames_from 4000 (List.replicate 252 310))
      (run_frames (frames_at_1Hz [310, 310, 310]) (LoopState.init 1)))
    (by rw [hwrap]; decide) (by rw [r1]; decide)
  refine ⟨p1, q, hd, ?_, ?_, ?_, ?_⟩
  · rw [classified_frame_counter]; exact hwrap
  · rw [hok]
  · rw [hok]; decide
  · rw [hok]; decide

/-! ## Window buffer -/

/-- The fault confirmation and publish code does not touch the window buffer
or its index. -/
theorem classified_frame_raw (f : Frame) (s : LoopState) :
    (classified_frame f s).1.raw_idx = s.raw_idx ∧
      (classified_frame f s).1.raw_buffer = s.raw_buffer := by
  unfold classified_frame
  dsimp only
  split_ifs <;> exact ⟨rfl, rfl⟩

/-- An iteration whose sensor read fails changes nothing and calls nothing. -/
theorem loop_iteration_read_failed (N : Nat) (w : Wdt) (t : Tick) (s : LoopState)
    (h : t.mpu6050_read = none) : loop_iteration N w t s = (s, []) := by
  unfold loop_iteration
  rw [h]

/-- An iteration that appends a sample to a frame that stays incomplete
advances the index by three and calls nothing. -/
theorem loop_iteration_incomplete (N : Nat) (w : Wdt) (t : Tick) (s : LoopState)
    (x y z : Rat) (h : t.mpu6050_read = some (x, y, z))
    (hlt : s.raw_idx + 3 < RAW_SIZE N) :
    (loop_iteration N w t s).1.raw_idx = s.raw_idx + 3 ∧ (loop_iteration N w t s).2 = [] := by
  unfold loop_iteration
  rw [h]
  dsimp only
  rw [if_pos (by omega)]
  exact ⟨by simp only [Nat.add_assoc], rfl⟩

/-- The calls of a classified frame are none, or one `mqtt_publish_anomaly`
followed by what that function calls. -/
theorem classified_frame_calls (f : Frame) (s : LoopState) :
    (classified_frame f s).2 = [] ∨
      ∃ msg, (classified_frame f s).2 =
        Call.mqtt_publish_anomaly msg :: mqtt_publish_anomaly msg f.mqtt := by
  by_cases hc : CONSECUTIVE_FAULTS ≤
      (if f.distance > FIXED_THRESHOLD then (s.fault_counter + 1) % 256 else 0)
  · by_cases ha : s.fault_active = false
    · rw [classified_frame_fault f s hc ha]
      exact Or.inr ⟨_, rfl⟩
    · rw [classified_frame_silent f s (fun _ => by simpa using ha)
        (fun h => absurd hc (Nat.not_le.mpr h))]
      exact Or.inl rfl
  · by_cases ht : f.now - s.last_pub > HEARTBEAT_SECONDS * 1000
    · rw [classified_frame_ok f s (Nat.not_le.mp hc) ht]
      exact Or.inr ⟨_, rfl⟩
    · rw [classified_frame_silent f s (fun h => absurd h hc) (fun _ => Int.not_lt.mp ht)]
      exact Or.inl rfl

/-- Neither the publish decision nor the watchdog feed invokes the classifier. -/
theorem no_classifier_after (f : Frame) (s : LoopState) (w : Wdt) (idx : Nat)
    (sig : List Rat) :
    Call.run_classifier idx sig ∉ (classified_frame f s).2 ++ watchdog_feed w := by
  have hw : Call.run_classifier idx sig ∉ watchdog_feed w := by
    unfold watchdog_feed
    split_ifs <;> simp
  rcases classified_frame_calls f s with h | ⟨msg, h⟩
  · rw [h]; simpa using hw
  · rw [h]
    by_cases hm : f.mqtt.mqtt_connected = 0 <;>
      simp [mqtt_publish_anomaly, hm, hw]

/-- An iteration that completes the frame resets the index and then invokes
the classifier on the buffer, before any other call and only once. -/
theorem loop_iteration_complete (N : Nat) (w : Wdt) (t : Tick) (s : LoopState)
    (x y z : Rat) (h : t.mpu6050_read = some (x, y, z))
    (hge : ¬ s.raw_idx + 3 < RAW_SIZE N) :
    (loop_iteration N w t s).1.raw_idx = 0 ∧
      ∃ rest, (loop_iteration N w t s).2 =
          Call.run_classifier 0 (loop_iteration N w t s).1.raw_buffer :: rest ∧
        ∀ idx sig, Call.run_classifier idx sig ∉ rest := by
  unfold loop_iteration
  rw [h]
  dsimp only
  rw [if_neg (by omega)]
  split
  · exact ⟨rfl, [], rfl, by simp⟩
  · rename_i distance _
    refine ⟨(classified_frame_raw _ _).1, ?_⟩
    rw [(classified_frame_raw _ _).2]
    exact ⟨_, rfl, fun idx sig => no_classifier_after _ _ w idx sig⟩

/-- The write index is three times the number of samples appended since the
last reset, and that number stays below `RAW_COUNT` between iterations. -/
theorem window_invariant (N : Nat) (w : Wdt) (pre : List Tick) (s : LoopState) (n : Nat)
    (h : s.raw_idx = 3 * n) (hn : n < N) :
    (run_loop N w pre s).raw_idx = 3 * samples_since_reset N w pre s n ∧
      samples_since_reset N w pre s n < N := by
  induction pre generalizing s n with
  | nil => exact ⟨h, hn⟩
  | cons t ts ih =>
    simp only [run_loop, samples_since_reset]
    cases hr : t.mpu6050_read with
    | none =>
      rw [loop_iteration_read_failed N w t s hr]
      exact ih s n h hn
    | some v =>
      obtain ⟨x, y, z⟩ := v
      by_cases hlt : s.raw_idx + 3 < RAW_SIZE N
      · obtain ⟨p, -⟩ := loop_iteration_incomplete N w t s x y z hr hlt
        have hne : (loop_iteration N w t s).1.raw_idx ≠ 0 := by omega
        simp only [hne, if_false]
        exact ih _ (n + 1) (by omega) (by unfold RAW_SIZE at hlt; omega)
      · obtain ⟨p, -⟩ := loop_iteration_complete N w t s x y z hr hlt
        simp only [p, if_true]
        exact ih _ 0 (by omega) (by omega)

/-- C8 (frame integrity). In a run of the loop from a state with `raw_idx = 0`
(`RAW_COUNT >= 1`, any mix of successful and failed reads), an iteration
invokes `run_classifier` only if its own read succeeded and that sample is the
`RAW_COUNT`-th appended since the last index reset (so `3 * RAW_COUNT` floats
were written); the index seen at the invocation is 0, the signal is the
buffer, the classifier is invoked once, and `raw_idx` is 0 after the iteration. -/
theorem frame_integrity (N : Nat) (w : Wdt) (pre : List Tick) (t : Tick) (s0 : LoopState)
    (h0 : s0.raw_idx = 0) (hN : 0 < N) (idx : Nat) (sig : List Rat)
    (hcall : Call.run_classifier idx sig ∈ (loop_iteration N w t (run_loop N w pre s0)).2) :
    t.mpu6050_read.isSome = true ∧
    samples_since_reset N w pre s0 0 + 1 = N ∧
    (run_loop N w pre s0).raw_idx + 3 = RAW_SIZE N ∧
    idx = 0 ∧
    sig = (loop_iteration N w t (run_loop N w pre s0)).1.raw_buffer ∧
    (loop_iteration N w t (run_loop N w pre s0)).2.count (Call.run_classifier idx sig) = 1 ∧
    (loop_iteration N w t (run_loop N w pre s0)).1.raw_idx = 0 := by
  obtain ⟨hi, hb⟩ := window_invariant N w pre s0 0 (by omega) hN
  cases hr : t.mpu6050_read with
  | none =>
    rw [loop_iteration_read_failed N w t _ hr] at hcall
    cases hcall
  | some v =>
    obtain ⟨x, y, z⟩ := v
    by_cases hlt : (run_loop N w pre s0).raw_idx + 3 < RAW_SIZE N
    · obtain ⟨-, q⟩ := loop_iteration_incomplete N w t _ x y z hr hlt
      rw [q] at hcall
      cases hcall
    · obtain ⟨p, rest, q, hrest⟩ := loop_iteration_complete N w t _ x y z hr hlt
      rw [q] at hcall
      have hhead : Call.run_classifier idx sig =
          Call.run_classifier 0 (loop_iteration N w t (run_loop N w pre s0)).1.raw_buffer := by
        rcases List.mem_cons.mp hcall with e | e
        · exact e
        · exact absurd e (hrest idx sig)
      injection hhead with e1 e2
      refine ⟨rfl, ?_, ?_, e1, e2, ?_, p⟩
      · unfold RAW_SIZE at hlt; omega
      · unfold RAW_SIZE at hlt ⊢; omega
      · rw [q, e1, e2, List.count_cons_self, List.count_eq_zero_of_not_mem (hrest _ _)]

/-- Witness for C8: frames of two samples; the second successful read
completes the frame and the classifier is invoked. -/
theorem frame_integrity_witness :
    samples_since_reset 2 ⟨true, 0⟩ [⟨some (16384, 0, -16384), fun _ => some 310, 10, ⟨1, 0, 0⟩⟩]
        (LoopState.init 2) 0 + 1 = 2 ∧
    (loop_iteration 2 ⟨true, 0⟩ ⟨some (16384, 0, -16384), fun _ => some 310, 20, ⟨1, 0, 0⟩⟩
      (run_loop 2 ⟨true, 0⟩ [⟨some (16384, 0, -16384), fun _ => some 310, 10, ⟨1, 0, 0⟩⟩]
        (LoopState.init 2))).1.raw_idx = 0 :=
  have h := frame_integrity 2 ⟨true, 0⟩
    [⟨some (16384, 0, -16384), fun _ => some 310, 10, ⟨1, 0, 0⟩⟩]
    ⟨some (16384, 0, -16384), fun _ => some 310, 20, ⟨1, 0, 0⟩⟩ (LoopState.init 2) rfl
    (by decide) 0 [1, 0, -1, 1, 0, -1]
    (by norm_num [loop_iteration, run_loop, LoopState.init, RAW_SIZE, List.replicate])
  ⟨h.2.1, h.2.2.2.2.2.2⟩

/-! ## Watchdog feed -/

/-- C9, the code at the failing inputs. With the watchdog device found and
channel 0 installed (frames of two samples): an iteration that appends a
sample to an incomplete frame, an iteration whose sensor read fails and an
iteration whose classification fails each make no `wdt_feed` call; only the
iteration that gets past the classifier feeds the watchdog, once, as its last
call. -/
theorem watchdog_feed_skipped :
    watchdog_init true 0 = ⟨true, 0⟩ ∧
    count_feeds (loop_iteration 2 (watchdog_init true 0)
      ⟨some (0, 0, 0), fun _ => some 100, 10, ⟨1, 0, 0⟩⟩ (LoopState.init 2)).2 = 0 ∧
    count_feeds (loop_iteration 2 (watchdog_init true 0)
      ⟨none, fun _ => some 100, 10, ⟨1, 0, 0⟩⟩ (LoopState.init 2)).2 = 0 ∧
    count_feeds (loop_iteration 2 (watchdog_init true 0)
      ⟨some (0, 0, 0), fun _ => none, 20, ⟨1, 0, 0⟩⟩
      (run_loop 2 (watchdog_init true 0) [⟨some (0, 0, 0), fun _ => none, 10, ⟨1, 0, 0⟩⟩]
        (LoopState.init 2))).2 = 0 ∧
    (loop_iteration 2 (watchdog_init true 0)
      ⟨some (0, 0, 0), fun _ => some 100, 20, ⟨1, 0, 0⟩⟩
      (run_loop 2 (watchdog_init true 0) [⟨some (0, 0, 0), fun _ => some 100, 10, ⟨1, 0, 0⟩⟩]
        (LoopState.init 2))).2 =
      [Call.run_classifier 0 [0, 0, 0, 0, 0, 0], Call.wdt_feed 0] := by
  refine ⟨by decide, ?_, by decide, ?_, ?_⟩ <;>
    norm_num [loop_iteration, run_loop, LoopState.init, RAW_SIZE, List.replicate, count_feeds,
      watchdog_init, watchdog_feed, classified_frame, FIXED_THRESHOLD, CONSECUTIVE_FAULTS,
      HEARTBEAT_SECONDS]

/-! ## Connection state machine -/

/-- C10, the code at the failing input. In the Connecting state a connack with
return code 5 (not authorized) clears `mqtt_connecting` and schedules nothing;
the same rejection delivered while `mqtt_connect_broker` waits leaves the
state Disconnected with `mqtt_helper_connect` as the only call. The sibling
paths do schedule the retry: `on_disconnect`, and `mqtt_connect_broker` when
`mqtt_helper_connect` fails at once. -/
theorem connack_rejected_no_retry :
    on_connack 5 false ⟨0, 1, 0⟩ = (⟨0, 0, 0⟩, []) ∧
    mqtt_connect_broker 0 [Callback.connack 5 false] Mqtt.init =
      (⟨0, 0, 0⟩, [Call.mqtt_helper_connect]) ∧
    on_disconnect 0 ⟨0, 1, 0⟩ = (⟨0, 0, 0⟩, [Call.k_work_schedule 5]) ∧
    mqtt_connect_broker (-1) [] Mqtt.init =
      (⟨0, 0, 0⟩, [Call.mqtt_helper_connect, Call.k_work_schedule 5]) := by
  decide

/-- C11 (connection idempotence). With `mqtt_connected` or `mqtt_connecting`
set, a connect request through `mqtt_connect_broker` and a firing of
`mqtt_reconnect_work_fn` both return without any call (no
`mqtt_helper_connect`, no `k_work_schedule`) and leave the state, both flags
included, as it was. -/
theorem connection_idempotence (helper_connect_result : Int) (during_wait : List Callback)
    (m : Mqtt) (h : m.mqtt_connected ≠ 0 ∨ m.mqtt_connecting ≠ 0) :
    mqtt_connect_broker helper_connect_result during_wait m = (m, []) ∧
    mqtt_reconnect_work_fn helper_connect_result during_wait m = (m, []) := by
  constructor
  · unfold mqtt_connect_broker
    rw [if_pos h]
  · unfold mqtt_reconnect_work_fn
    rw [if_neg]
    intro hc
    rcases h with h | h
    · exact h hc.1
    · exact h hc.2

/-- Witness for C11: the Connecting state. -/
theorem connection_idempotence_witness :
    mqtt_connect_broker 0 [Callback.connack 0 false] ⟨0, 1, 0⟩ = (⟨0, 1, 0⟩, []) ∧
    mqtt_reconnect_work_fn 0 [Callback.connack 0 false] ⟨0, 1, 0⟩ = (⟨0, 1, 0⟩, []) :=
  connection_idempotence 0 [Callback.connack 0 false] ⟨0, 1, 0⟩ (Or.inr (by decide))

/-- C12 (publish while not connected is dropped). With `mqtt_connected = 0`
`mqtt_publish_anomaly` makes no call at all, so nothing reaches
`mqtt_helper_publish` and nothing is queued; the function only reads the flags
(its model has no state result). With `mqtt_connected = 1` it makes exactly one
call, `mqtt_helper_publish` of the message. -/
theorem publish_not_connected_dropped (result : ei_anomaly_msg) (m : Mqtt)
    (h : m.mqtt_connected = 0) :
    mqtt_publish_anomaly result m = [] ∧
    count_transport (mqtt_publish_anomaly result m) = 0 ∧
    ∀ connecting sem : Nat,
      mqtt_publish_anomaly result ⟨1, connecting, sem⟩ = [Call.mqtt_helper_publish result] ∧
      count_transport (mqtt_publish_anomaly result ⟨1, connecting, sem⟩) = 1 := by
  refine ⟨?_, ?_, fun connecting sem => ?_⟩
  · simp [mqtt_publish_anomaly, h]
  · simp [mqtt_publish_anomaly, h, count_transport]
  · simp [mqtt_publish_anomaly, count_transport]

/-- Witness for C12: a FAULT message in the Connecting state. -/
theorem publish_not_connected_dropped_witness :
    mqtt_publish_anomaly ⟨310, 300, "FAULT"⟩ ⟨0, 1, 0⟩ = [] :=
  (publish_not_connected_dropped ⟨310, 300, "FAULT"⟩ ⟨0, 1, 0⟩ rfl).1

/-! ## Failure paths of the loop and sample units -/

/-- After a successful read the buffer holds the three values, each divided
by 16384, at the old index and the two after it, whatever the iteration does
next. -/
theorem loop_iteration_buffer (N : Nat) (w : Wdt) (t : Tick) (s : LoopState)
    (x y z : Rat) (h : t.mpu6050_read = some (x, y, z)) :
    (loop_iteration N w t s).1.raw_buffer =
      ((s.raw_buffer.set s.raw_idx (x / 16384)).set (s.raw_idx + 1) (y / 16384)).set
        (s.raw_idx + 2) (z / 16384) := by
  unfold loop_iteration
  rw [h]
  dsimp only
  split_ifs
  · rfl
  · split
    · rfl
    · exact (classified_frame_raw _ _).2

/-- C13 (classifier failure). When the read succeeds, the frame is complete
and `run_classifier` does not return `EI_IMPULSE_OK` on it, the iteration
leaves `fault_counter`, `fault_active` and `last_pub` as they were, its only
call is the classifier invocation (no `mqtt_publish_anomaly`), and `raw_idx`
is 0 for the next frame. -/
theorem classifier_failure_no_side_effect (N : Nat) (w : Wdt) (t : Tick) (s : LoopState)
    (x y z : Rat) (hr : t.mpu6050_read = some (x, y, z))
    (hfull : ¬ s.raw_idx + 3 < RAW_SIZE N)
    (hfail : t.run_classifier
      (((s.raw_buffer.set s.raw_idx (x / 16384)).set (s.raw_idx + 1) (y / 16384)).set
        (s.raw_idx + 2) (z / 16384)) = none) :
    (loop_iteration N w t s).1.fault_counter = s.fault_counter ∧
    (loop_iteration N w t s).1.fault_active = s.fault_active ∧
    (loop_iteration N w t s).1.last_pub = s.last_pub ∧
    (loop_iteration N w t s).1.raw_idx = 0 ∧
    (loop_iteration N w t s).2 =
      [Call.run_classifier 0 (loop_iteration N w t s).1.raw_buffer] ∧
    (∀ msg, Call.mqtt_publish_anomaly msg ∉ (loop_iteration N w t s).2) ∧
    count_transport (loop_iteration N w t s).2 = 0 := by
  have e : loop_iteration N w t s =
      ({ s with
          raw_buffer := ((s.raw_buffer.set s.raw_idx (x / 16384)).set (s.raw_idx + 1)
            (y / 16384)).set (s.raw_idx + 2) (z / 16384),
          raw_idx := 0 },
        [Call.run_classifier 0
          (((s.raw_buffer.set s.raw_idx (x / 16384)).set (s.raw_idx + 1) (y / 16384)).set
            (s.raw_idx + 2) (z / 16384))]) := by
    unfold loop_iteration
    rw [hr]
    dsimp only
    rw [if_neg (by omega)]
    split
    · rfl
    · rename_i d hd
      rw [hfail] at hd
      cases hd
  rw [e]
  refine ⟨rfl, rfl, rfl, rfl, rfl, ?_, ?_⟩
  · intro msg hm
    simp at hm
  · simp [count_transport]

/-- Witness for C13: frames of one sample and a classifier that fails. -/
theorem classifier_failure_no_side_effect_witness :
    (loop_iteration 1 ⟨true, 0⟩ ⟨some (0, 0, 0), fun _ => none, 10, ⟨1, 0, 0⟩⟩
      (run_frames (frames_at_1Hz [310, 310]) (LoopState.init 1))).1.fault_counter = 2 ∧
    (loop_iteration 1 ⟨true, 0⟩ ⟨some (0, 0, 0), fun _ => none, 10, ⟨1, 0, 0⟩⟩
      (run_frames (frames_at_1Hz [310, 310]) (LoopState.init 1))).1.raw_idx = 0 :=
  have h := classifier_failure_no_side_effect 1 ⟨true, 0⟩
    ⟨some (0, 0, 0), fun _ => none, 10, ⟨1, 0, 0⟩⟩
    (run_frames (frames_at_1Hz [310, 310]) (LoopState.init 1)) 0 0 0 rfl (by decide) rfl
  ⟨h.1.trans (by decide), h.2.2.2.1⟩

/-- C14 (sensor read failure). When `mpu6050_read` returns false the iteration
returns the state it was given (buffer, index, fault state and `last_pub`) and
makes no call: no classification, no publish. The read returns false when the
device pointer is null or the bus transfer fails. -/
theorem sensor_failure_skips_tick (N : Nat) (w : Wdt) (t : Tick) (s : LoopState)
    (h : t.mpu6050_read = none) :
    loop_iteration N w t s = (s, []) ∧
    (∀ idx sig, Call.run_classifier idx sig ∉ (loop_iteration N w t s).2) ∧
    (∀ msg, Call.mqtt_publish_anomaly msg ∉ (loop_iteration N w t s).2) ∧
    (∀ dev, mpu6050_read dev none = none) ∧
    (∀ bus, mpu6050_read false bus = none) := by
  have e := loop_iteration_read_failed N w t s h
  refine ⟨e, ?_, ?_, ?_, ?_⟩
  · intro idx sig hm
    rw [e] at hm
    cases hm
  · intro msg hm
    rw [e] at hm
    cases hm
  · intro dev
    cases dev <;> rfl
  · intro bus
    rfl

/-- Witness for C14: a failed bus transfer in the middle of a frame. -/
theorem sensor_failure_skips_tick_witness :
    loop_iteration 2 ⟨true, 0⟩ ⟨mpu6050_read true none, fun _ => some 310, 20, ⟨1, 0, 0⟩⟩
        (run_loop 2 ⟨true, 0⟩ [⟨some (0, 0, 0), fun _ => some 310, 10, ⟨1, 0, 0⟩⟩]
          (LoopState.init 2)) =
      (run_loop 2 ⟨true, 0⟩ [⟨some (0, 0, 0), fun _ => some 310, 10, ⟨1, 0, 0⟩⟩]
        (LoopState.init 2), []) :=
  (sensor_failure_skips_tick 2 ⟨true, 0⟩
    ⟨mpu6050_read true none, fun _ => some 310, 20, ⟨1, 0, 0⟩⟩
    (run_loop 2 ⟨true, 0⟩ [⟨some (0, 0, 0), fun _ => some 310, 10, ⟨1, 0, 0⟩⟩]
      (LoopState.init 2)) rfl).1

/-- C15, the code at the failing input. The register bytes 0x40 0x00, 0x00
0x00, 0xC0 0x00 are the counts 16384, 0, -16384, which `mpu6050_read` returns
as 1 g, 0 g, -1 g; the loop divides by 16384 once more and writes 1/16384, 0
and -1/16384 to `raw_buffer`. -/
theorem samples_scaled_twice :
    mpu6050_read true (some ⟨64, 0, 0, 0, 192, 0⟩) = some (1, 0, -1) ∧
    (loop_iteration 2 ⟨true, 0⟩
      ⟨mpu6050_read true (some ⟨64, 0, 0, 0, 192, 0⟩), fun _ => some 100, 10, ⟨1, 0, 0⟩⟩
      (LoopState.init 2)).1.raw_buffer = [1 / 16384, 0, -1 / 16384, 0, 0, 0] := by
  have e : mpu6050_read true (some ⟨64, 0, 0, 0, 192, 0⟩) = some (1, 0, -1) := by
    norm_num [mpu6050_read, int16_t, Nat.shiftLeft_eq]
  refine ⟨e, ?_⟩
  rw [loop_iteration_buffer 2 _ _ _ 1 0 (-1) e]
  norm_num [LoopState.init, RAW_SIZE, List.replicate]

/-! ## Frame layout -/

/-- Layout of a concatenation of readings. -/
theorem frame_layout_append (xs ys : List (Rat × Rat × Rat)) :
    frame_layout (xs ++ ys) = frame_layout xs ++ frame_layout ys := by
  induction xs with
  | nil => rfl
  | cons v vs ih =>
    obtain ⟨x, y, z⟩ := v
    simp [frame_layout, ih]

/-- The layout holds three floats per reading. -/
theorem frame_layout_length (xs : List (Rat × Rat × Rat)) :
    (frame_layout xs).length = 3 * xs.length := by
  induction xs with
  | nil => rfl
  | cons v vs ih =>
    obtain ⟨x, y, z⟩ := v
    simp only [frame_layout, List.length_cons, ih]
    omega

/-- Positions `3k`, `3k+1`, `3k+2` of the layout hold the x, y, z values
written for reading `k`. -/
theorem frame_layout_index (xs : List (Rat × Rat × Rat)) (k : Nat) :
    (frame_layout xs)[3 * k]? = xs[k]?.map (fun v => v.1 / 16384) ∧
    (frame_layout xs)[3 * k + 1]? = xs[k]?.map (fun v => v.2.1 / 16384) ∧
    (frame_layout xs)[3 * k + 2]? = xs[k]?.map (fun v => v.2.2 / 16384) := by
  induction xs generalizing k with
  | nil => simp [frame_layout]
  | cons v vs ih =>
    obtain ⟨x, y, z⟩ := v
    cases k with
    | zero => simp [frame_layout]
    | succ k =>
      have e0 : 3 * (k + 1) = 3 * k + 1 + 1 + 1 := by omega
      have e1 : 3 * (k + 1) + 1 = 3 * k + 1 + 1 + 1 + 1 := by omega
      have e2 : 3 * (k + 1) + 2 = 3 * k + 2 + 1 + 1 + 1 := by omega
      obtain ⟨p, q, r⟩ := ih k
      refine ⟨?_, ?_, ?_⟩
      · rw [e0]; simpa [frame_layout] using p
      · rw [e1]; simpa [frame_layout] using q
      · rw [e2]; simpa [frame_layout] using r

/-- Three writes at `i`, `i+1`, `i+2` inside the buffer extend the prefix of
length `i` by the three values. -/
theorem take_after_three_writes (buf : List Rat) (i : Nat) (a b c : Rat)
    (h : i + 3 ≤ buf.length) :
    (((buf.set i a).set (i + 1) b).set (i + 2) c).take (i + 3) = buf.take i ++ [a, b, c] := by
  induction i generalizing buf with
  | zero =>
    match buf, h with
    | p :: q :: r :: rest, _ => simp [List.set, List.take]
  | succ i ih =>
    match buf, h with
    | p :: tl, h =>
      have h1 : i + 3 ≤ tl.length := by simpa using h
      have := ih tl h1
      simpa [List.set, List.take] using this

/-- Successful reads of a concatenation of tick sequences. -/
theorem successful_reads_append (xs ys : List Tick) :
    successful_reads (xs ++ ys) = successful_reads xs ++ successful_reads ys := by
  induction xs with
  | nil => rfl
  | cons t ts ih =>
    cases hr : t.mpu6050_read with
    | none => simp [successful_reads, hr, ih]
    | some v => simp [successful_reads, hr, ih]

/-- While the frame is incomplete, the buffer prefix up to the write index is
the layout of the readings appended so far. `L` are the readings already in
the buffer at the start. -/
theorem window_prefix (N : Nat) (w : Wdt) (ticks : List Tick) (s : LoopState)
    (L : List (Rat × Rat × Rat)) (hidx : s.raw_idx = 3 * L.length)
    (hlen : s.raw_buffer.length = RAW_SIZE N)
    (hpre : s.raw_buffer.take (3 * L.length) = frame_layout L)
    (hcount : L.length + (successful_reads ticks).length < N) :
    (run_loop N w ticks s).raw_idx = 3 * (L ++ successful_reads ticks).length ∧
    (run_loop N w ticks s).raw_buffer.length = RAW_SIZE N ∧
    (run_loop N w ticks s).raw_buffer.take (3 * (L ++ successful_reads ticks).length) =
      frame_layout (L ++ successful_reads ticks) := by
  induction ticks generalizing s L with
  | nil => simpa [successful_reads, run_loop] using ⟨hidx, hlen, hpre⟩
  | cons t ts ih =>
    cases hr : t.mpu6050_read with
    | none =>
      have e : successful_reads (t :: ts) = successful_reads ts := by
        simp [successful_reads, hr]
      rw [e] at hcount ⊢
      simp only [run_loop]
      rw [loop_iteration_read_failed N w t s hr]
      exact ih s L hidx hlen hpre hcount
    | some v =>
      obtain ⟨x, y, z⟩ := v
      have e : successful_reads (t :: ts) = (x, y, z) :: successful_reads ts := by
        simp [successful_reads, hr]
      rw [e] at hcount ⊢
      simp only [List.length_cons] at hcount
      have hlt : s.raw_idx + 3 < RAW_SIZE N := by unfold RAW_SIZE; omega
      obtain ⟨p, -⟩ := loop_iteration_incomplete N w t s x y z hr hlt
      have hb := loop_iteration_buffer N w t s x y z hr
      have hL : (L ++ [(x, y, z)]).length = L.length + 1 := by simp
      have h3 : 3 * (L.length + 1) = 3 * L.length + 3 := by omega
      have step := ih (loop_iteration N w t s).1 (L ++ [(x, y, z)])
        (by rw [p, hidx, hL]; omega)
        (by rw [hb]; simpa using hlen)
        (by
          rw [hb, hL, h3, hidx,
            take_after_three_writes _ _ _ _ _ (by rw [hlen]; unfold RAW_SIZE; omega), hpre,
            frame_layout_append]
          rfl)
        (by rw [hL]; omega)
      simp only [run_loop]
      simpa [List.append_assoc] using step

/-- C16 (frame layout). From a state with `raw_idx = 0` and a buffer of
`RAW_SIZE` floats, after a tick sequence whose successful reads number
`RAW_COUNT`, the last tick being one of them (failed reads anywhere): the
classifier is invoked with index 0 on a buffer equal to the layout
`[x0,y0,z0, x1,y1,z1, ...]` of the values written for the successful reads in
acquisition order, so positions `3k`, `3k+1`, `3k+2` hold the values written
for reading `k`; and `get_data(offset, length, out)` with
`offset + length <= 3 * RAW_COUNT` returns 0 and copies exactly `length` floats,
the `i`-th being `raw_buffer[offset + i]`. -/
theorem frame_layout_at_classification (N : Nat) (w : Wdt) (ticks : List Tick) (t : Tick)
    (s0 : LoopState) (h0 : s0.raw_idx = 0) (hlen : s0.raw_buffer.length = RAW_SIZE N)
    (hlast : t.mpu6050_read ≠ none)
    (hcount : (successful_reads (ticks ++ [t])).length = N) :
    (loop_iteration N w t (run_loop N w ticks s0)).1.raw_buffer =
      frame_layout (successful_reads (ticks ++ [t])) ∧
    (∃ rest, (loop_iteration N w t (run_loop N w ticks s0)).2 =
      Call.run_classifier 0 (frame_layout (successful_reads (ticks ++ [t]))) :: rest) ∧
    (∀ k,
      (frame_layout (successful_reads (ticks ++ [t])))[3 * k]? =
        (successful_reads (ticks ++ [t]))[k]?.map (fun v => v.1 / 16384) ∧
      (frame_layout (successful_reads (ticks ++ [t])))[3 * k + 1]? =
        (successful_reads (ticks ++ [t]))[k]?.map (fun v => v.2.1 / 16384) ∧
      (frame_layout (successful_reads (ticks ++ [t])))[3 * k + 2]? =
        (successful_reads (ticks ++ [t]))[k]?.map (fun v => v.2.2 / 16384)) ∧
    (∀ offset length, offset + length ≤ 3 * N →
      (get_data (frame_layout (successful_reads (ticks ++ [t]))) offset length).2 = 0 ∧
      (get_data (frame_layout (successful_reads (ticks ++ [t]))) offset length).1.length =
        length ∧
      ∀ i, i < length →
        (get_data (frame_layout (successful_reads (ticks ++ [t]))) offset length).1[i]? =
          (frame_layout (successful_reads (ticks ++ [t])))[offset + i]?) := by
  cases hr : t.mpu6050_read with
  | none => exact absurd hr hlast
  | some v =>
    obtain ⟨x, y, z⟩ := v
    have e : successful_reads (ticks ++ [t]) = successful_reads ticks ++ [(x, y, z)] := by
      rw [successful_reads_append]
      simp [successful_reads, hr]
    rw [e] at hcount ⊢
    have hc : (successful_reads ticks).length + 1 = N := by simpa using hcount
    obtain ⟨p, q, r⟩ := window_prefix N w ticks s0 [] (by simpa using h0) hlen
      (by simp [frame_layout]) (by simp; omega)
    simp only [List.nil_append] at p q r
    have hfull : ¬ (run_loop N w ticks s0).raw_idx + 3 < RAW_SIZE N := by
      rw [p]; unfold RAW_SIZE; omega
    have hb := loop_iteration_buffer N w t (run_loop N w ticks s0) x y z hr
    have hbuf : (loop_iteration N w t (run_loop N w ticks s0)).1.raw_buffer =
        frame_layout (successful_reads ticks ++ [(x, y, z)]) := by
      have hl : (loop_iteration N w t (run_loop N w ticks s0)).1.raw_buffer.length =
          3 * (successful_reads ticks).length + 3 := by
        rw [hb]; simp only [List.length_set, q]; unfold RAW_SIZE; omega
      rw [← List.take_length (loop_iteration N w t (run_loop N w ticks s0)).1.raw_buffer, hl,
        hb, p, take_after_three_writes _ _ _ _ _ (by rw [q]; unfold RAW_SIZE; omega), r,
        frame_layout_append]
      rfl
    obtain ⟨-, rest, hcalls, -⟩ := loop_iteration_complete N w t _ x y z hr hfull
    refine ⟨hbuf, ⟨rest, by rw [hcalls, hbuf]⟩, fun k => frame_layout_index _ k, ?_⟩
    intro offset length hol
    have hlay : (frame_layout (successful_reads ticks ++ [(x, y, z)])).length = 3 * N := by
      rw [frame_layout_length, hcount]
    refine ⟨rfl, ?_, ?_⟩
    · simp only [get_data, List.length_take, List.length_drop, hlay]
      omega
    · intro i hi
      simp only [get_data]
      rw [List.getElem?_take_of_lt hi, List.getElem?_drop]

/-- Witness for C16: frames of two samples with a failed read in between. -/
theorem frame_layout_at_classification_witness :
    (loop_iteration 2 ⟨true, 0⟩ ⟨some (16384, 0, -16384), fun _ => some 310, 30, ⟨1, 0, 0⟩⟩
      (run_loop 2 ⟨true, 0⟩
        [⟨some (8192, 4096, 0), fun _ => some 310, 10, ⟨1, 0, 0⟩⟩,
         ⟨none, fun _ => some 310, 20, ⟨1, 0, 0⟩⟩] (LoopState.init 2))).1.raw_buffer =
      frame_layout (successful_reads
        ([⟨some (8192, 4096, 0), fun _ => some 310, 10, ⟨1, 0, 0⟩⟩,
          ⟨none, fun _ => some 310, 20, ⟨1, 0, 0⟩⟩] ++
         [⟨some (16384, 0, -16384), fun _ => some 310, 30, ⟨1, 0, 0⟩⟩])) :=
  (frame_layout_at_classification 2 ⟨true, 0⟩
    [⟨some (8192, 4096, 0), fun _ => some 310, 10, ⟨1, 0, 0⟩⟩,
     ⟨none, fun _ => some 310, 20, ⟨1, 0, 0⟩⟩]
    ⟨some (16384, 0, -16384), fun _ => some 310, 30, ⟨1, 0, 0⟩⟩ (LoopState.init 2) rfl
    (by decide) (by simp) (by decide)).1

/-! ## Sampling semaphore -/

/-- Running a concatenation of events is running the parts in turn. -/
theorem sample_sem_run_append (xs ys : List SemEvent) (s : SampleSem) :
    sample_sem_run (xs ++ ys) s = sample_sem_run ys (sample_sem_run xs s) := by
  induction xs generalizing s with
  | nil => rfl
  | cons e es ih =>
    cases e <;> simp [sample_sem_run, ih]

/-- The pending count never exceeds the limit 1, and it is 0 whenever the loop
is pended. -/
theorem sample_sem_run_invariant (es : List SemEvent) (s : SampleSem) (h1 : s.count ≤ 1)
    (h2 : s.waiting = true → s.count = 0) :
    (sample_sem_run es s).count ≤ 1 ∧
      ((sample_sem_run es s).waiting = true → (sample_sem_run es s).count = 0) := by
  induction es generalizing s with
  | nil => exact ⟨h1, h2⟩
  | cons e es ih =>
    obtain ⟨c, w, i⟩ := s
    cases e with
    | tick =>
      simp only [sample_sem_run]
      apply ih
      · cases w
        · simp only [timer_cb, k_sem_give_1]
          split_ifs <;> simp_all
        · simpa [timer_cb] using h1
      · cases w
        · simp [timer_cb]
        · simp [timer_cb]
    | take =>
      simp only [sample_sem_run]
      apply ih
      · cases w
        · simp only [k_sem_take]
          split_ifs <;> simp_all
        · simpa [k_sem_take] using h1
      · cases w
        · simp only [k_sem_take]
          split_ifs <;> simp_all
        · simpa [k_sem_take] using h2

/-- With a wake pending and the loop running, further ticks are lost. -/
theorem sample_sem_ticks_pending (n i : Nat) :
    sample_sem_run (List.replicate n SemEvent.tick) ⟨1, false, i⟩ = ⟨1, false, i⟩ := by
  induction n with
  | zero => rfl
  | succ n ih =>
    rw [List.replicate_succ]
    simpa [sample_sem_run, timer_cb, k_sem_give_1] using ih

/-- With no wake pending and the loop running, a burst of `n` ticks leaves one
wake pending (none when the burst is empty). -/
theorem sample_sem_ticks_idle (n i : Nat) :
    sample_sem_run (List.replicate n SemEvent.tick) ⟨0, false, i⟩ = ⟨min n 1, false, i⟩ := by
  cases n with
  | zero => rfl
  | succ n =>
    rw [List.replicate_succ]
    have h : min (n + 1) 1 = 1 := by omega
    simpa [sample_sem_run, timer_cb, k_sem_give_1, h] using sample_sem_ticks_pending n i

/-- A pended loop reaches no further take. -/
theorem sample_sem_takes_blocked (k c i : Nat) :
    sample_sem_run (List.replicate k SemEvent.take) ⟨c, true, i⟩ = ⟨c, true, i⟩ := by
  induction k with
  | zero => rfl
  | succ k ih =>
    rw [List.replicate_succ]
    simpa [sample_sem_run, k_sem_take] using ih

/-- From a running loop with at most one wake pending, two or more takes in a
row start as many iterations as wakes are pending and end pended. -/
theorem sample_sem_takes (k : Nat) (s : SampleSem) (h1 : s.count ≤ 1)
    (h2 : s.waiting = false) :
    sample_sem_run (List.replicate (k + 2) SemEvent.take) s =
      ⟨0, true, s.iterations + s.count⟩ := by
  obtain ⟨c, w, i⟩ := s
  simp only at h1 h2
  subst h2
  rw [List.replicate_succ, List.replicate_succ]
  have hc : c = 0 ∨ c = 1 := by omega
  rcases hc with rfl | rfl
  · simpa [sample_sem_run, k_sem_take] using sample_sem_takes_blocked k 0 i
  · simpa [sample_sem_run, k_sem_take] using sample_sem_takes_blocked k 0 (i + 1)

/-- C17, counterexample. The loop is pended in `k_sem_take` when a burst of
three ticks fires: the first tick releases it (one iteration, count still 0),
the second is held pending, the third is lost; the takes that follow start a
second iteration before the loop pends again. Two iterations follow the burst,
not at most one. -/
theorem scheduler_drop_counterexample :
    sample_sem_run [SemEvent.take] SampleSem.init = ⟨0, true, 0⟩ ∧
    sample_sem_run [SemEvent.take, SemEvent.tick] SampleSem.init = ⟨0, false, 1⟩ ∧
    sample_sem_run [SemEvent.take, SemEvent.tick, SemEvent.tick, SemEvent.tick]
      SampleSem.init = ⟨1, false, 1⟩ ∧
    sample_sem_run [SemEvent.take, SemEvent.tick, SemEvent.tick, SemEvent.tick,
      SemEvent.take, SemEvent.take] SampleSem.init = ⟨0, true, 2⟩ ∧
    ¬ ((sample_sem_run [SemEvent.take, SemEvent.tick, SemEvent.tick, SemEvent.tick,
          SemEvent.take, SemEvent.take] SampleSem.init).iterations ≤
        (sample_sem_run [SemEvent.take] SampleSem.init).iterations + 1) := by
  decide

/-- C17, amended. With `sample_sem` a counting semaphore of initial count 0 and
limit 1 whose taker blocks in `k_sem_take(K_FOREVER)`: after every sequence of
ticks and takes the pending count is 0 or 1; a tick with a wake pending
changes nothing (it is lost); a burst of ticks that finds the loop running
leaves one wake pending and starts no iteration, a burst that finds the loop
pended releases it with its first tick (one iteration) and leaves one wake
pending if it has a second tick; after any burst the loop is not pended, at
most one wake is pending, and the takes that follow start exactly as many
iterations as wakes are pending before the loop pends again with count 0. -/
theorem scheduler_drop_amended (events : List SemEvent) (n k : Nat) :
    (sample_sem_run events SampleSem.init).count ≤ 1 ∧
    (∀ i, timer_cb ⟨1, false, i⟩ = ⟨1, false, i⟩) ∧
    sample_sem_run (events ++ List.replicate (n + 1) SemEvent.tick) SampleSem.init =
      (if (sample_sem_run events SampleSem.init).waiting then
        ⟨min n 1, false, (sample_sem_run events SampleSem.init).iterations + 1⟩
      else ⟨1, false, (sample_sem_run events SampleSem.init).iterations⟩) ∧
    (sample_sem_run (events ++ List.replicate (n + 1) SemEvent.tick) SampleSem.init).count ≤ 1 ∧
    sample_sem_run (events ++ List.replicate (n + 1) SemEvent.tick ++
        List.replicate (k + 2) SemEvent.take) SampleSem.init =
      ⟨0, true,
        (sample_sem_run (events ++ List.replicate (n + 1) SemEvent.tick)
          SampleSem.init).iterations +
        (sample_sem_run (events ++ List.replicate (n + 1) SemEvent.tick)
          SampleSem.init).count⟩ := by
  obtain ⟨hle, hw⟩ := sample_sem_run_invariant events SampleSem.init (Nat.zero_le 1)
    (fun _ => rfl)
  have hburst : sample_sem_run (events ++ List.replicate (n + 1) SemEvent.tick)
      SampleSem.init =
      (if (sample_sem_run events SampleSem.init).waiting then
        ⟨min n 1, false, (sample_sem_run events SampleSem.init).iterations + 1⟩
      else ⟨1, false, (sample_sem_run events SampleSem.init).iterations⟩) := by
    rw [sample_sem_run_append, List.replicate_succ]
    generalize sample_sem_run events SampleSem.init = s at hle hw
    obtain ⟨c, w, i⟩ := s
    cases w
    · simp only at hle
      have hg : k_sem_give_1 c = 1 := by
        unfold k_sem_give_1
        split_ifs <;> omega
      simpa [sample_sem_run, timer_cb, hg] using sample_sem_ticks_pending n i
    · have hc : c = 0 := hw rfl
      subst hc
      simpa [sample_sem_run, timer_cb] using sample_sem_ticks_idle n (i + 1)
  have hcount : (sample_sem_run (events ++ List.replicate (n + 1) SemEvent.tick)
      SampleSem.init).count ≤ 1 :=
    (sample_sem_run_invariant _ SampleSem.init (Nat.zero_le 1) (fun _ => rfl)).1
  have hrun : (sample_sem_run (events ++ List.replicate (n + 1) SemEvent.tick)
      SampleSem.init).waiting = false := by
    rw [hburst]
    split_ifs <;> rfl
  refine ⟨hle, fun i => by simp [timer_cb, k_sem_give_1], hburst, hcount, ?_⟩
  rw [sample_sem_run_append (events ++ List.replicate (n + 1) SemEvent.tick)]
  exact sample_sem_takes k _ hcount hrun

/-! ## Connect timeout and transport errors -/

/-- Callbacks never call `mqtt_helper_connect`. -/
theorem deliver_all_no_connect (cbs : List Callback) (m : Mqtt) :
    Call.mqtt_helper_connect ∉ (deliver_all cbs m).2 := by
  induction cbs generalizing m with
  | nil => simp [deliver_all]
  | cons cb rest ih =>
    simp only [deliver_all, List.mem_append, not_or]
    refine ⟨?_, ih _⟩
    cases cb with
    | connack rc sp =>
      simp only [Callback.deliver, on_connack]
      split_ifs <;> simp
    | disconnect r => simp [Callback.deliver, on_disconnect]

/-- C18, counterexample. From the initial Disconnected state a connect attempt
whose wait expires with no callback returns in the Connecting state
(`mqtt_connecting = 1`) with `mqtt_helper_connect` as its only call: nothing is
scheduled, and a later connect request or retry firing returns at once. -/
theorem connect_timeout_counterexample :
    mqtt_connect_broker 0 [] Mqtt.init = (⟨0, 1, 0⟩, [Call.mqtt_helper_connect]) ∧
    mqtt_connect_broker 0 [] (mqtt_connect_broker 0 [] Mqtt.init).1 = (⟨0, 1, 0⟩, []) ∧
    mqtt_reconnect_work_fn 0 [] (mqtt_connect_broker 0 [] Mqtt.init).1 = (⟨0, 1, 0⟩, []) := by
  decide

/-- C18, amended. When `mqtt_connect_broker` starts an attempt from the
Disconnected state (`mqtt_helper_connect` returns 0) and the wait expires with
no callback having run, the state on return is Connecting
(`mqtt_connecting = 1`, `mqtt_connected = 0`), the only call is
`mqtt_helper_connect` and no retry is scheduled; a later connect request or
retry firing makes no call and changes nothing; once `on_disconnect` runs, the
state is Disconnected with the retry scheduled, and the work item firing then
starts a new attempt. -/
theorem connect_timeout_amended (m : Mqtt) (h1 : m.mqtt_connected = 0)
    (h2 : m.mqtt_connecting = 0) :
    (mqtt_connect_broker 0 [] m).1.mqtt_connecting = 1 ∧
    (mqtt_connect_broker 0 [] m).1.mqtt_connected = 0 ∧
    (mqtt_connect_broker 0 [] m).2 = [Call.mqtt_helper_connect] ∧
    (∀ r cbs, mqtt_connect_broker r cbs (mqtt_connect_broker 0 [] m).1 =
      ((mqtt_connect_broker 0 [] m).1, [])) ∧
    (∀ r cbs, mqtt_reconnect_work_fn r cbs (mqtt_connect_broker 0 [] m).1 =
      ((mqtt_connect_broker 0 [] m).1, [])) ∧
    (∀ result, (on_disconnect result (mqtt_connect_broker 0 [] m).1).2 =
        [Call.k_work_schedule 5] ∧
      (mqtt_reconnect_work_fn 0 []
        (on_disconnect result (mqtt_connect_broker 0 [] m).1).1).2 =
        [Call.mqtt_helper_connect]) := by
  have e : mqtt_connect_broker 0 [] m =
      ({ m with mqtt_connecting := 1, mqtt_connected_sem := m.mqtt_connected_sem - 1 },
        [Call.mqtt_helper_connect]) := by
    simp [mqtt_connect_broker, h1, h2, deliver_all]
  rw [e]
  refine ⟨rfl, h1, rfl, fun r cbs => ?_, fun r cbs => ?_, fun result => ⟨rfl, ?_⟩⟩
  · simp [mqtt_connect_broker]
  · simp [mqtt_reconnect_work_fn]
  · simp [mqtt_reconnect_work_fn, mqtt_connect_broker, on_disconnect, deliver_all]

/-- Witness for the amended C18: the initial connection state. -/
theorem connect_timeout_amended_witness :
    (mqtt_connect_broker 0 [] Mqtt.init).1.mqtt_connecting = 1 ∧
    (mqtt_connect_broker 0 [] Mqtt.init).2 = [Call.mqtt_helper_connect] :=
  ⟨(connect_timeout_amended Mqtt.init rfl rfl).1,
   (connect_timeout_amended Mqtt.init rfl rfl).2.2.1⟩

/-- C19 (transport error schedules a retry). From any state `on_disconnect`
leaves both flags 0 and makes the single call `k_work_schedule` with 5 s. When
the work item fires in a Disconnected state and `mqtt_helper_connect` returns
0, the state is set to Connecting before any callback is delivered, exactly
one `mqtt_helper_connect` call is made, and with no callback during the wait
the state on return is Connecting; when `mqtt_helper_connect` fails at once
the state is Disconnected again and the calls are the connect attempt and one
`k_work_schedule` with 5 s. -/
theorem transport_error_schedules_retry (result : Int) (m0 m : Mqtt)
    (during_wait : List Callback) (r : Int) (h1 : m.mqtt_connected = 0)
    (h2 : m.mqtt_connecting = 0) (hr : r ≠ 0) :
    (on_disconnect result m0).1.mqtt_connected = 0 ∧
    (on_disconnect result m0).1.mqtt_connecting = 0 ∧
    (on_disconnect result m0).2 = [Call.k_work_schedule 5] ∧
    (mqtt_reconnect_work_fn 0 during_wait m).2 =
      Call.mqtt_helper_connect ::
        (deliver_all during_wait { m with mqtt_connecting := 1 }).2 ∧
    (mqtt_reconnect_work_fn 0 during_wait m).2.count Call.mqtt_helper_connect = 1 ∧
    (mqtt_reconnect_work_fn 0 [] m).1.mqtt_connecting = 1 ∧
    (mqtt_reconnect_work_fn 0 [] m).1.mqtt_connected = 0 ∧
    (mqtt_reconnect_work_fn 0 [] m).2 = [Call.mqtt_helper_connect] ∧
    (mqtt_reconnect_work_fn r during_wait m).1.mqtt_connected = 0 ∧
    (mqtt_reconnect_work_fn r during_wait m).1.mqtt_connecting = 0 ∧
    (mqtt_reconnect_work_fn r during_wait m).2 =
      [Call.mqtt_helper_connect, Call.k_work_schedule 5] := by
  have e0 : mqtt_reconnect_work_fn 0 during_wait m =
      ({ (deliver_all during_wait { m with mqtt_connecting := 1 }).1 with
          mqtt_connected_sem :=
            (deliver_all during_wait { m with mqtt_connecting := 1 }).1.mqtt_connected_sem - 1 },
        Call.mqtt_helper_connect ::
          (deliver_all during_wait { m with mqtt_connecting := 1 }).2) := by
    simp [mqtt_reconnect_work_fn, mqtt_connect_broker, h1, h2]
  have e1 : mqtt_reconnect_work_fn 0 [] m =
      ({ m with mqtt_connecting := 1, mqtt_connected_sem := m.mqtt_connected_sem - 1 },
        [Call.mqtt_helper_connect]) := by
    simp [mqtt_reconnect_work_fn, mqtt_connect_broker, h1, h2, deliver_all]
  have e2 : mqtt_reconnect_work_fn r during_wait m =
      ({ m with mqtt_connecting := 0 },
        [Call.mqtt_helper_connect, Call.k_work_schedule 5]) := by
    simp [mqtt_reconnect_work_fn, mqtt_connect_broker, h1, h2, hr]
  refine ⟨rfl, rfl, rfl, by rw [e0], ?_, by rw [e1], by rw [e1]; exact h1, by rw [e1],
    by rw [e2]; exact h1, by rw [e2], by rw [e2]⟩
  rw [e0, List.count_cons_self,
    List.count_eq_zero_of_not_mem (deliver_all_no_connect during_wait _)]

/-- Witness for C19: a disconnect in the Connected state, then the work item
firing with an immediate connect failure. -/
theorem transport_error_schedules_retry_witness :
    (on_disconnect (-1) ⟨1, 0, 0⟩).2 = [Call.k_work_schedule 5] ∧
    (mqtt_reconnect_work_fn (-1) [] (on_disconnect (-1) ⟨1, 0, 0⟩).1).2 =
      [Call.mqtt_helper_connect, Call.k_work_schedule 5] :=
  have h := transport_error_schedules_retry (-1) ⟨1, 0, 0⟩ (on_disconnect (-1) ⟨1, 0, 0⟩).1 []
    (-1) rfl rfl (by decide)
  ⟨h.2.2.1, h.2.2.2.2.2.2.2.2.2.2⟩

/-! ## Window bounds -/

/-- C20 (window writes stay in bounds). In a run of the loop from
`raw_idx = 0` with `RAW_COUNT >= 1`, whatever the reads and the classifier do,
at the top of every iteration `raw_idx` is a multiple of 3 and at most
`RAW_SIZE - 3`, so the three write indices `raw_idx`, `raw_idx + 1`,
`raw_idx + 2` are below `RAW_SIZE = 3 * RAW_COUNT`. -/
theorem window_writes_in_bounds (N : Nat) (w : Wdt) (ticks : List Tick) (s0 : LoopState)
    (h0 : s0.raw_idx = 0) (hN : 0 < N) :
    (run_loop N w ticks s0).raw_idx % 3 = 0 ∧
    (run_loop N w ticks s0).raw_idx ≤ RAW_SIZE N - 3 ∧
    (run_loop N w ticks s0).raw_idx < RAW_SIZE N ∧
    (run_loop N w ticks s0).raw_idx + 1 < RAW_SIZE N ∧
    (run_loop N w ticks s0).raw_idx + 2 < RAW_SIZE N ∧
    RAW_SIZE N = 3 * N := by
  obtain ⟨p, q⟩ := window_invariant N w ticks s0 0 (by omega) hN
  unfold RAW_SIZE
  refine ⟨?_, ?_, ?_, ?_, ?_, ?_⟩ <;> omega

/-- Witness for C20: frames of two samples after one successful read. -/
theorem window_writes_in_bounds_witness :
    (run_loop 2 ⟨true, 0⟩ [⟨some (0, 0, 0), fun _ => some 310, 10, ⟨1, 0, 0⟩⟩]
      (LoopState.init 2)).raw_idx + 2 < RAW_SIZE 2 :=
  (window_writes_in_bounds 2 ⟨true, 0⟩ [⟨some (0, 0, 0), fun _ => some 310, 10, ⟨1, 0, 0⟩⟩]
    (LoopState.init 2) rfl (by decide)).2.2.2.2.1

end EdgeAI
